import Mathlib

/-!
Verification development for the ctrmml playback/validation engine
(src/src/player.cpp).  The C++ classes Basic_Player, Player and
Track_Validator are shallowly embedded as pure functions over an explicit
state record.  Machine integers are modelled as Nat/Int; the unsigned
tick counters are modelled as unbounded naturals (no claim under study
depends on 32-bit wraparound of accumulated time).  Exceptions become an
explicit result type carrying the state at the moment of the throw, and
the unbounded while-loops of the C++ code become fuel-indexed recursions.
-/

namespace Ctrmml

/-- Tags of control-flow stack frames, matching the C++ enum
`Player_Stack::Type` including its `MAX_STACK_TYPE` sentinel (the value
`get_stack_type` returns for an empty stack). -/
inductive StackType where
  | LOOP
  | JUMP
  | DRUM_MODE
  | MAX_STACK_TYPE
deriving DecidableEq, Repr

/-- One control-flow stack frame, with the C++ struct's four generic
slots (the drum-mode frames reuse `end_position`/`loop_count` to hold the
saved on/off durations, exactly as the source does).  The C++ `Track*`
pointer is modelled by the track's id in the song. -/
structure Player_Stack where
  type : StackType
  track : Int
  position : Int
  end_position : Int
  loop_count : Int
deriving DecidableEq, Repr

/-- Event types referenced by player.cpp.  `CHANNEL_CMD i` stands for the
generic channel-command type `Event::CHANNEL_CMD + i` of the C++ enum; the
named parametric types (VOL, TEMPO_BPM, ...) sit below `CHANNEL_CMD` in
the enum and are separate constructors here. -/
inductive EType where
  | NOP
  | REST
  | NOTE
  | TIE
  | LOOP_START
  | LOOP_BREAK
  | LOOP_END
  | SEGNO
  | JUMP
  | END
  | PLATFORM
  | TRANSPOSE_REL
  | VOL
  | VOL_REL
  | VOL_FINE_REL
  | TEMPO_BPM
  | CHANNEL_CMD (i : Nat)
deriving DecidableEq, Repr

/-- One event: type, signed parameter, on/off durations in ticks.  The
opaque diagnostic source reference is not modelled (no claim mentions
it). -/
structure Ev where
  type : EType
  param : Int
  on_time : Nat
  off_time : Nat
deriving DecidableEq, Repr

/-- The default-constructed event used for fresh state. -/
def Ev.init : Ev := { type := .NOP, param := 0, on_time := 0, off_time := 0 }

/-- A song: a keyed collection of tracks (each an indexable event list)
plus the set of defined platform-command ids.  The payload (`Tag`) of a
platform command is opaque and unused by the base `Player`'s
`parse_platform_event`, so only the set of defined ids is kept. -/
structure Song where
  tracks : List (Int × List Ev)
  platform_commands : List Int
deriving DecidableEq, Repr

/-- Track lookup by id; `none` models the out-of-range exception of
`Song::get_track`. -/
def Song.get_track (g : Song) (i : Int) : Option (List Ev) :=
  g.tracks.lookup i

/-- Indexed event lookup in a track; `none` models the `std::out_of_range`
thrown past the last element. -/
def getEvent (tr : List Ev) (p : Int) : Option Ev :=
  if 0 ≤ p then tr.get? p.toNat else none

/-- Modelled from the spec: the channel-command slot index of
`Event::TRANSPOSE` relative to `Event::CHANNEL_CMD` (track.h is not under
src/; the spec only requires the named slots to be distinct members of
the contiguous channel-command range). -/
def TRANSPOSE_slot : Nat := 1

/-- Modelled from the spec: the channel-command slot index of
`Event::VOL_FINE` relative to `Event::CHANNEL_CMD`. -/
def VOL_FINE_slot : Nat := 3

/-- Modelled from the spec: the channel-command slot index of
`Event::DRUM_MODE` relative to `Event::CHANNEL_CMD`. -/
def DRUM_MODE_slot : Nat := 8

/-- Modelled from the spec: the channel-command slot index of
`Event::TEMPO` relative to `Event::CHANNEL_CMD`. -/
def TEMPO_slot : Nat := 9

/-- Modelled from the spec: the number of generic channel-command slots
(`Event::CMD_COUNT - Event::CHANNEL_CMD`); the spec requires it to fit
below the two reserved interpretive flag bits 30 and 31. -/
def CMD_RANGE : Nat := 10

/-- Bit 30 of the channel dirty mask: the "coarse volume" flag
(`VOL_BIT` in player.cpp). -/
def VOL_BIT : Nat := 30

/-- Bit 31 of the channel dirty mask: the "BPM mode" flag
(`BPM_BIT` in player.cpp). -/
def BPM_BIT : Nat := 31

/-- Modelled from the spec: the `PLAYER_SKIP` bit of `Player_Flag`
(player.h is not under src/); the precise bit position is immaterial, bit
0 is used. -/
def PLAYER_SKIP : Nat := 1

/-- Wrap an integer to the int16_t range, as assignments into the
per-channel `int16_t` state do. -/
def wrap16 (n : Int) : Int :=
  (n + 32768) % 65536 - 32768

/-- The combined interpreter state: the fields of `Basic_Player`, of
`Player` and of `Track_Validator` (the two subclasses never coexist; the
unused fields simply stay at their initial values).  The mutable `Song`
is part of the state because the LOOP_BREAK back-patch writes through a
pointer into the track storage. -/
structure PState where
  song : Song
  track : Int
  position : Int
  enabled : Bool
  loop_position : Int
  loop_reset_position : Int
  stack : List Player_Stack
  sd_loop : Nat
  sd_jump : Nat
  sd_drum : Nat
  sd_max : Nat
  loop_count : Nat
  loop_reset_count : Nat
  max_stack_depth : Nat
  play_time : Nat
  on_time : Nat
  off_time : Nat
  event : Ev
  flag : Nat
  note_count : Nat
  rest_count : Nat
  platform_state : List Int
  platform_update_mask : Nat
  track_state : List Int
  track_update_mask : Nat
  segno_time : Int
  loop_time : Nat
deriving DecidableEq, Repr

/-- Result of one fallible operation: normal result, a thrown
`InputError` carrying its message and the object state at the moment of
the throw, fuel exhaustion of a modelled while-loop, or undefined
behaviour (`std::stack::top`/`pop` on an empty stack). -/
inductive Res where
  | ok : PState → Res
  | err : String → PState → Res
  | out : Res
  | ub : Res
deriving DecidableEq, Repr

/-- Monadic composition on `Res`: errors, fuel exhaustion and undefined
behaviour propagate. -/
def Res.bind (r : Res) (f : PState → Res) : Res :=
  match r with
  | .ok s => f s
  | .err m s => .err m s
  | .out => .out
  | .ub => .ub

/-- Map a state transformation over a result. -/
def Res.map (g : PState → PState) : Res → Res
  | .ok s => .ok (g s)
  | .err m s => .err m (g s)
  | .out => .out
  | .ub => .ub

/-- Whether a result is a normal result. -/
def Res.isOk : Res → Bool
  | .ok _ => true
  | _ => false

/-- Basic_Player::stack_underflow: the context-dependent control-flow
error message table. -/
def underflowMsg : StackType → String
  | .LOOP => "unterminated \x27[]\x27 loop"
  | .JUMP => "unexpected \x27]\x27 loop end"
  | .DRUM_MODE => "drum routine contains no note"
  | .MAX_STACK_TYPE => "unknown stack type (BUG, please report)"

/-- Basic_Player::stack_top: peek with type checking.  An empty stack
reports the expected tag, a wrong top frame reports the actual tag. -/
def stack_top (st : List Player_Stack) (t : StackType) : Except String Player_Stack :=
  match st with
  | [] => .error (underflowMsg t)
  | f :: _ => if f.type = t then .ok f else .error (underflowMsg f.type)

/-- Result of Basic_Player::stack_pop. -/
inductive PopRes where
  | ok : Player_Stack → List Player_Stack → PopRes
  | err : String → PopRes
  | ub : PopRes
deriving DecidableEq, Repr

/-- Basic_Player::stack_pop: pop with type checking.  The C++ code reads
std::stack::top() before any emptiness check, which is undefined
behaviour on an empty stack. -/
def stack_pop (st : List Player_Stack) (t : StackType) : PopRes :=
  match st with
  | [] => .ub
  | f :: rest => if f.type = t then .ok f rest else .err (underflowMsg f.type)

/-- Basic_Player::get_stack_type. -/
def get_stack_type (st : List Player_Stack) : StackType :=
  match st with
  | [] => .MAX_STACK_TYPE
  | f :: _ => f.type

/-- The stack_depth[frame.type]++ bookkeeping of stack_push. -/
def bumpDepth (s : PState) (t : StackType) : PState :=
  match t with
  | .LOOP => {s with sd_loop := s.sd_loop + 1}
  | .JUMP => {s with sd_jump := s.sd_jump + 1}
  | .DRUM_MODE => {s with sd_drum := s.sd_drum + 1}
  | .MAX_STACK_TYPE => {s with sd_max := s.sd_max + 1}

/-- Basic_Player::stack_push with the depth-limit check. -/
def stack_push (s : PState) (f : Player_Stack) : Res :=
  if s.max_stack_depth ≤ s.stack.length then
    .err "stack overflow (depth limit reached)" s
  else .ok {bumpDepth s f.type with stack := f :: s.stack}

/-- FLAG_SET: set one bit of a 32-bit dirty mask. -/
def setBit (m b : Nat) : Nat := m ||| (1 <<< b)

/-- FLAG_CLR: clear one bit of a 32-bit dirty mask. -/
def clrBit (m b : Nat) : Nat := m &&& (((1 <<< 32) - 1) ^^^ (1 <<< b))

/-- CH_STATE read: the per-channel value at a command slot. -/
def chGet (s : PState) (i : Nat) : Int := s.track_state.getD i 0

/-- CH_STATE write, with int16_t conversion. -/
def chSet (s : PState) (i : Nat) (v : Int) : PState :=
  {s with track_state := s.track_state.set i (wrap16 v)}

/-- Player::coarse_volume_flag. -/
def coarse_volume_flag (s : PState) : Bool := s.track_update_mask.testBit VOL_BIT

/-- Player::bpm_flag. -/
def bpm_flag (s : PState) : Bool := s.track_update_mask.testBit BPM_BIT

/-- Track_Validator::get_loop_length. -/
def get_loop_length (s : PState) : Nat := s.loop_time

/-- Player::handle_drum_mode: the two-event call/return macro. -/
def handle_drum_mode (s : PState) : Res :=
  if get_stack_type s.stack ≠ .DRUM_MODE then
    let offset := chGet s DRUM_MODE_slot
    match s.song.get_track (offset + s.event.param) with
    | none =>
      .err ("drum mode error: track *" ++ toString (s.event.param + offset) ++
            " is not defined (base " ++ toString offset ++ ", note " ++
            toString s.event.param ++ ")") s
    | some _ =>
      (stack_push s {type := .DRUM_MODE, track := s.track, position := s.position,
                     end_position := (s.on_time : Int), loop_count := (s.off_time : Int)}).bind
        fun s1 =>
          .ok {s1 with track := offset + s.event.param, position := 0,
                       on_time := 0, off_time := 0,
                       event := {s1.event with type := .NOP}}
  else
    match stack_pop s.stack .DRUM_MODE with
    | .ok f rest =>
      .ok {s with on_time := f.end_position.toNat, off_time := f.loop_count.toNat,
                  position := f.position, track := f.track, stack := rest}
    | .err m => .err m s
    | .ub => .ub

/-- Player::handle_event: translate an event into per-channel state and
dirty flags. -/
def handle_event (s : PState) : Res :=
  match s.event.type with
  | .NOTE =>
    if chGet s DRUM_MODE_slot ≠ 0 then handle_drum_mode s else .ok s
  | .PLATFORM =>
    if s.song.platform_commands.contains s.event.param then
      .ok {s with platform_update_mask := s.platform_update_mask ||| 0}
    else
      .err ("Platform command " ++ toString s.event.param ++ " is not defined") s
  | .TRANSPOSE_REL =>
    let s1 := chSet s TRANSPOSE_slot (chGet s TRANSPOSE_slot + s.event.param)
    .ok {s1 with track_update_mask := setBit s1.track_update_mask TRANSPOSE_slot}
  | .VOL =>
    let s0 := chSet s VOL_FINE_slot 0
    let s1 := chSet s0 VOL_FINE_slot (chGet s0 VOL_FINE_slot + s.event.param)
    .ok {s1 with track_update_mask := setBit (setBit s1.track_update_mask VOL_FINE_slot) VOL_BIT}
  | .VOL_REL =>
    let s1 := chSet s VOL_FINE_slot (chGet s VOL_FINE_slot + s.event.param)
    .ok {s1 with track_update_mask := setBit (setBit s1.track_update_mask VOL_FINE_slot) VOL_BIT}
  | .VOL_FINE_REL =>
    let s1 := chSet s VOL_FINE_slot (chGet s VOL_FINE_slot + s.event.param)
    .ok {s1 with track_update_mask := clrBit (setBit s1.track_update_mask VOL_FINE_slot) VOL_BIT}
  | .TEMPO_BPM =>
    let s1 := chSet s TEMPO_slot s.event.param
    .ok {s1 with track_update_mask := setBit (setBit s1.track_update_mask TEMPO_slot) BPM_BIT}
  | .CHANNEL_CMD i =>
    if i < CMD_RANGE then
      let s1 := chSet s i s.event.param
      let m1 := setBit s1.track_update_mask i
      let m2 := if i = VOL_FINE_slot then clrBit m1 VOL_BIT else m1
      let m3 := if i = TEMPO_slot then clrBit m2 BPM_BIT else m2
      .ok {s1 with track_update_mask := m3}
    else .ok s
  | _ => .ok s

/-- Player::write_event: the default emission hook counts notes and
rests. -/
def write_event (s : PState) : PState :=
  if s.event.type = .NOTE then {s with note_count := s.note_count + 1}
  else if s.event.type = .REST ∨ s.event.type = .END then
    {s with rest_count := s.rest_count + 1}
  else s

/-- Player::event_hook: mutate state, then emit unless the PLAYER_SKIP
bit is set. -/
def P_event_hook (s : PState) : Res :=
  (handle_event s).bind fun t =>
    if t.flag % 2 = 0 then .ok (write_event t) else .ok t

/-- Player::end_hook: synthesize a final END event and emit it. -/
def P_end_hook (s : PState) : PState :=
  write_event {s with event := {type := .END, param := 0, on_time := 0, off_time := 0}}

/-- Track_Validator::event_hook: record the played time of a SEGNO. -/
def V_event_hook (s : PState) : Res :=
  if s.event.type = .SEGNO then .ok {s with segno_time := (s.play_time : Int)} else .ok s

/-- Track_Validator::end_hook: compute the loop length. -/
def V_end_hook (s : PState) : PState :=
  if 0 ≤ s.segno_time then {s with loop_time := s.play_time - s.segno_time.toNat} else s

/-- The three dynamically dispatched extension points of
Basic_Player. -/
structure Hooks where
  event_hook : PState → Res
  loop_hook : PState → PState × Bool
  end_hook : PState → PState

/-- The Player hook table (loop_hook always authorizes looping). -/
def P_hooks : Hooks :=
  { event_hook := P_event_hook, loop_hook := fun s => (s, true), end_hook := P_end_hook }

/-- The Track_Validator hook table (loop_hook always refuses). -/
def V_hooks : Hooks :=
  { event_hook := V_event_hook, loop_hook := fun s => (s, false), end_hook := V_end_hook }

/-- Patch one event's parameter inside a track list (the write through
the C++ track_event pointer). -/
def listPatch (tr : List Ev) (idx : Int) (v : Int) : List Ev :=
  if 0 ≤ idx then
    match tr.get? idx.toNat with
    | some e => tr.set idx.toNat {e with param := v}
    | none => tr
  else tr

/-- Patch one stored event's parameter in the song's track table. -/
def patchTracks : List (Int × List Ev) → Int → Int → Int → List (Int × List Ev)
  | [], _, _, _ => []
  | p :: rest, tid, idx, v =>
    if p.1 = tid then (p.1, listPatch p.2 idx v) :: rest
    else p :: patchTracks rest tid idx v

/-- The LOOP_BREAK back-patch applied to the song. -/
def patchParam (g : Song) (tid : Int) (idx : Int) (v : Int) : Song :=
  {g with tracks := patchTracks g.tracks tid idx v}

/-- The event dispatch of Basic_Player::step_event, applied after the
fetch; `idx` is the index the event was fetched from (the target of the
C++ track_event pointer). -/
def dispatch (H : Hooks) (s : PState) (idx : Int) : Res :=
  match s.event.type with
  | .LOOP_START =>
    stack_push s {type := .LOOP, track := s.track, position := s.position,
                  end_position := 0, loop_count := 0}
  | .LOOP_BREAK =>
    match stack_top s.stack .LOOP with
    | .error m => .err m s
    | .ok f =>
      let s1 := {s with song := patchParam s.song s.track idx f.end_position}
      if f.loop_count = 1 then
        match stack_pop s1.stack .LOOP with
        | .ok g rest => .ok {s1 with position := g.end_position, stack := rest}
        | .err m => .err m s1
        | .ub => .ub
      else .ok s1
  | .LOOP_END =>
    match stack_top s.stack .LOOP with
    | .error m => .err m s
    | .ok f =>
      let f1 : Player_Stack := {f with end_position := s.position}
      let f2 : Player_Stack :=
        if f1.loop_count = 0 then {f1 with loop_count := s.event.param} else f1
      let f3 : Player_Stack := {f2 with loop_count := f2.loop_count - 1}
      if 0 < f3.loop_count then
        .ok {s with stack := f3 :: s.stack.tail, position := f3.position}
      else
        match stack_pop (f3 :: s.stack.tail) .LOOP with
        | .ok _ rest => .ok {s with stack := rest}
        | .err m => .err m {s with stack := f3 :: s.stack.tail}
        | .ub => .ub
  | .SEGNO =>
    H.event_hook {s with loop_position := s.position, loop_reset_position := s.position}
  | .JUMP =>
    match s.song.get_track s.event.param with
    | none => .err "jump destination doesn\x27t exist" s
    | some _ =>
      (stack_push s {type := .JUMP, track := s.track, position := s.position,
                     end_position := 0, loop_count := 0}).bind fun s1 =>
        .ok {s1 with track := s.event.param, position := 0}
  | .END =>
    match s.stack with
    | _ :: _ =>
      match stack_top s.stack .JUMP with
      | .error m => .err m s
      | .ok f =>
        let s1 := {s with track := f.track}
        match stack_pop s1.stack .JUMP with
        | .ok g rest => .ok {s1 with position := g.position, stack := rest}
        | .err m => .err m s1
        | .ub => .ub
    | [] =>
      if s.loop_position = -1 then
        .ok (H.end_hook {s with enabled := false})
      else
        let sb := H.loop_hook s
        if sb.2 then
          .ok {sb.1 with position := sb.1.loop_position, loop_count := sb.1.loop_count + 1}
        else .ok (H.end_hook {sb.1 with enabled := false})
  | _ => H.event_hook s

/-- The opening statements of step_event: fold the pending durations
into the played time and clear them. -/
def accum (s : PState) : PState :=
  {s with play_time := s.play_time + s.on_time + s.off_time,
          on_time := 0, off_time := 0}

/-- The loop-reset snapshot of step_event: stabilize the reported loop
count when passing the loop-reset point. -/
def snap (s : PState) : PState :=
  if s.position = s.loop_reset_position
  then {s with loop_reset_count := s.loop_count} else s

/-- The event that step_event will fetch from state s (`none` models the
out_of_range signal past the end of the track data). -/
def fetched (s : PState) : Option Ev :=
  (s.song.get_track s.track).bind fun tr => getEvent tr s.position

/-- Basic_Player::step_event: fold pending durations into played time,
snapshot the loop count at the loop-reset point, fetch the next event
(synthesizing END past the end of data, with the position increment of
the C++ post-increment preserved), copy its durations, and dispatch.
On the JUMP and drum-mode paths, the overflow fault from stack_push is
kept distinct from the lookup failure: input.h is not under src/, and
per spec sections 7 and 8 the StackOverflow fault and the
UnresolvedReference fault are separate reporting paths. -/
def step_event (H : Hooks) (s0 : PState) : Res :=
  let sb := snap (accum s0)
  let idx := sb.position
  match fetched sb with
  | none =>
    let e : Ev := {type := .END, param := 0, on_time := 0, off_time := 0}
    dispatch H {sb with position := idx + 1, event := e, on_time := 0, off_time := 0} idx
  | some e =>
    dispatch H {sb with position := idx + 1, event := e,
                        on_time := e.on_time, off_time := e.off_time} idx

/-- One event step with the Player hooks. -/
def step_P : PState → Res := step_event P_hooks

/-- One event step with the Track_Validator hooks. -/
def step_V : PState → Res := step_event V_hooks

/-- The freshly constructed state shared by Basic_Player, Player and
Track_Validator (fields of the absent subclass stay at their initial
values). -/
def initState (g : Song) (tid : Int) (fl : Nat) : PState :=
  { song := g, track := tid, position := 0, enabled := true,
    loop_position := -1, loop_reset_position := -1, stack := [],
    sd_loop := 0, sd_jump := 0, sd_drum := 0, sd_max := 0,
    loop_count := 0, loop_reset_count := 0, max_stack_depth := 10,
    play_time := 0, on_time := 0, off_time := 0, event := Ev.init,
    flag := fl, note_count := 0, rest_count := 0,
    platform_state := List.replicate 32 0, platform_update_mask := 0,
    track_state := List.replicate CMD_RANGE 0, track_update_mask := 0,
    segno_time := -1, loop_time := 0 }

/-- Full playthrough with the Player hooks: while(is_enabled())
step_event(). -/
def prun (fuel : Nat) (s : PState) : Res :=
  if s.enabled = false then .ok s
  else match fuel with
    | 0 => .out
    | f + 1 => (step_P s).bind (prun f)

/-- The Track_Validator constructor loop: while(is_enabled())
step_event(). -/
def vrun (fuel : Nat) (s : PState) : Res :=
  if s.enabled = false then .ok s
  else match fuel with
    | 0 => .out
    | f + 1 => (step_V s).bind (vrun f)

/-- The trailing while-loop of Player::play_tick: step until a nonzero
duration is pending or playback ends. -/
def drain (fuel : Nat) (s : PState) : Res :=
  if s.enabled = true ∧ s.on_time = 0 ∧ s.off_time = 0 then
    match fuel with
    | 0 => .out
    | f + 1 => (step_P s).bind (drain f)
  else .ok s

/-- Player::play_tick: advance exactly one tick. -/
def play_tick (fuel : Nat) (s : PState) : Res :=
  let s1 :=
    if s.on_time ≠ 0 then
      let t := {s with on_time := s.on_time - 1}
      if t.on_time = 0 ∧ t.off_time ≠ 0 then
        write_event {t with event := {type := .REST, param := 0, on_time := 0, off_time := 0}}
      else t
    else if s.off_time ≠ 0 then {s with off_time := s.off_time - 1}
    else s
  (drain fuel s1).bind fun s2 => .ok {s2 with play_time := s2.play_time + 1}

/-- n sequential play_tick calls. -/
def playN (fuel : Nat) : Nat → PState → Res
  | 0, s => .ok s
  | n + 1, s => (play_tick fuel s).bind (playN fuel n)

/-- The while-loop of Player::skip_ticks, with the trailing
play_time += remaining-budget statement folded into every exit point. -/
def skip_loop (fuel : Nat) (ticks : Nat) (s : PState) : Res :=
  if ticks = 0 ∨ s.enabled = false then
    .ok {s with play_time := s.play_time + ticks}
  else if ticks < s.on_time then
    .ok {s with on_time := s.on_time - ticks, play_time := s.play_time + ticks}
  else
    let s1 := {s with play_time := s.play_time + s.on_time, on_time := 0}
    let t1 := ticks - s.on_time
    if t1 < s1.off_time then
      .ok {s1 with off_time := s1.off_time - t1, play_time := s1.play_time + t1}
    else
      let s2 := {s1 with play_time := s1.play_time + s1.off_time, off_time := 0}
      let t2 := t1 - s1.off_time
      match fuel with
      | 0 => .out
      | f + 1 => (step_P s2).bind (skip_loop f t2)

/-- Player::skip_ticks: set the PLAYER_SKIP bit, run the draining loop,
clear the bit. -/
def skip_ticks (fuel : Nat) (n : Nat) (s : PState) : Res :=
  if s.enabled = false then .ok {s with play_time := s.play_time + n}
  else
    (skip_loop fuel n {s with flag := 2 * (s.flag / 2) + 1}).bind fun s1 =>
      .ok {s1 with flag := 2 * (s1.flag / 2)}

/-- Erase the emission artifacts a fast-forward is allowed to differ in:
the PLAYER_SKIP bit, the last-event snapshot and the note/rest
counters. -/
def erase (s : PState) : PState :=
  {s with flag := 2 * (s.flag / 2), event := Ev.init,
          note_count := 0, rest_count := 0}

section BasicLemmas

@[simp] theorem Res.bind_ok (s : PState) (f : PState → Res) : (Res.ok s).bind f = f s := rfl

@[simp] theorem Res.bind_err (m : String) (s : PState) (f : PState → Res) :
    (Res.err m s).bind f = .err m s := rfl

@[simp] theorem Res.bind_out (f : PState → Res) : Res.out.bind f = .out := rfl

@[simp] theorem Res.bind_ub (f : PState → Res) : Res.ub.bind f = .ub := rfl

@[simp] theorem accum_song (s : PState) : (accum s).song = s.song := rfl

@[simp] theorem accum_track (s : PState) : (accum s).track = s.track := rfl

@[simp] theorem accum_position (s : PState) : (accum s).position = s.position := rfl

@[simp] theorem accum_enabled (s : PState) : (accum s).enabled = s.enabled := rfl

@[simp] theorem accum_loop_position (s : PState) : (accum s).loop_position = s.loop_position := rfl

@[simp] theorem accum_loop_reset_position (s : PState) :
    (accum s).loop_reset_position = s.loop_reset_position := rfl

@[simp] theorem accum_stack (s : PState) : (accum s).stack = s.stack := rfl

@[simp] theorem accum_max_stack_depth (s : PState) :
    (accum s).max_stack_depth = s.max_stack_depth := rfl

@[simp] theorem accum_track_state (s : PState) : (accum s).track_state = s.track_state := rfl

@[simp] theorem accum_track_update_mask (s : PState) :
    (accum s).track_update_mask = s.track_update_mask := rfl

@[simp] theorem accum_platform_state (s : PState) :
    (accum s).platform_state = s.platform_state := rfl

@[simp] theorem accum_platform_update_mask (s : PState) :
    (accum s).platform_update_mask = s.platform_update_mask := rfl

@[simp] theorem accum_flag (s : PState) : (accum s).flag = s.flag := rfl

@[simp] theorem accum_note_count (s : PState) : (accum s).note_count = s.note_count := rfl

@[simp] theorem accum_rest_count (s : PState) : (accum s).rest_count = s.rest_count := rfl

@[simp] theorem accum_segno_time (s : PState) : (accum s).segno_time = s.segno_time := rfl

@[simp] theorem accum_loop_time (s : PState) : (accum s).loop_time = s.loop_time := rfl

@[simp] theorem accum_loop_count (s : PState) : (accum s).loop_count = s.loop_count := rfl

@[simp] theorem accum_on_time (s : PState) : (accum s).on_time = 0 := rfl

@[simp] theorem accum_off_time (s : PState) : (accum s).off_time = 0 := rfl

@[simp] theorem accum_play_time (s : PState) :
    (accum s).play_time = s.play_time + s.on_time + s.off_time := rfl

@[simp] theorem snap_song (s : PState) : (snap s).song = s.song := by
  unfold snap; split <;> rfl

@[simp] theorem snap_track (s : PState) : (snap s).track = s.track := by
  unfold snap; split <;> rfl

@[simp] theorem snap_position (s : PState) : (snap s).position = s.position := by
  unfold snap; split <;> rfl

@[simp] theorem snap_enabled (s : PState) : (snap s).enabled = s.enabled := by
  unfold snap; split <;> rfl

@[simp] theorem snap_loop_position (s : PState) : (snap s).loop_position = s.loop_position := by
  unfold snap; split <;> rfl

@[simp] theorem snap_loop_reset_position (s : PState) :
    (snap s).loop_reset_position = s.loop_reset_position := by
  unfold snap; split <;> rfl

@[simp] theorem snap_stack (s : PState) : (snap s).stack = s.stack := by
  unfold snap; split <;> rfl

@[simp] theorem snap_max_stack_depth (s : PState) :
    (snap s).max_stack_depth = s.max_stack_depth := by
  unfold snap; split <;> rfl

@[simp] theorem snap_track_state (s : PState) : (snap s).track_state = s.track_state := by
  unfold snap; split <;> rfl

@[simp] theorem snap_track_update_mask (s : PState) :
    (snap s).track_update_mask = s.track_update_mask := by
  unfold snap; split <;> rfl

@[simp] theorem snap_platform_state (s : PState) :
    (snap s).platform_state = s.platform_state := by
  unfold snap; split <;> rfl

@[simp] theorem snap_platform_update_mask (s : PState) :
    (snap s).platform_update_mask = s.platform_update_mask := by
  unfold snap; split <;> rfl

@[simp] theorem snap_flag (s : PState) : (snap s).flag = s.flag := by
  unfold snap; split <;> rfl

@[simp] theorem snap_note_count (s : PState) : (snap s).note_count = s.note_count := by
  unfold snap; split <;> rfl

@[simp] theorem snap_rest_count (s : PState) : (snap s).rest_count = s.rest_count := by
  unfold snap; split <;> rfl

@[simp] theorem snap_segno_time (s : PState) : (snap s).segno_time = s.segno_time := by
  unfold snap; split <;> rfl

@[simp] theorem snap_loop_time (s : PState) : (snap s).loop_time = s.loop_time := by
  unfold snap; split <;> rfl

@[simp] theorem snap_loop_count (s : PState) : (snap s).loop_count = s.loop_count := by
  unfold snap; split <;> rfl

@[simp] theorem snap_on_time (s : PState) : (snap s).on_time = s.on_time := by
  unfold snap; split <;> rfl

@[simp] theorem snap_off_time (s : PState) : (snap s).off_time = s.off_time := by
  unfold snap; split <;> rfl

@[simp] theorem snap_play_time (s : PState) : (snap s).play_time = s.play_time := by
  unfold snap; split <;> rfl

@[simp] theorem fetched_snap (s : PState) : fetched (snap s) = fetched s := by
  unfold fetched; simp

@[simp] theorem fetched_accum (s : PState) : fetched (accum s) = fetched s := by
  unfold fetched; simp

@[simp] theorem bumpDepth_song (s : PState) (t : StackType) : (bumpDepth s t).song = s.song := by
  cases t <;> rfl

@[simp] theorem bumpDepth_track (s : PState) (t : StackType) : (bumpDepth s t).track = s.track := by
  cases t <;> rfl

@[simp] theorem bumpDepth_position (s : PState) (t : StackType) :
    (bumpDepth s t).position = s.position := by
  cases t <;> rfl

@[simp] theorem bumpDepth_stack (s : PState) (t : StackType) :
    (bumpDepth s t).stack = s.stack := by
  cases t <;> rfl

@[simp] theorem bumpDepth_enabled (s : PState) (t : StackType) :
    (bumpDepth s t).enabled = s.enabled := by
  cases t <;> rfl

@[simp] theorem bumpDepth_on_time (s : PState) (t : StackType) :
    (bumpDepth s t).on_time = s.on_time := by
  cases t <;> rfl

@[simp] theorem bumpDepth_off_time (s : PState) (t : StackType) :
    (bumpDepth s t).off_time = s.off_time := by
  cases t <;> rfl

@[simp] theorem bumpDepth_play_time (s : PState) (t : StackType) :
    (bumpDepth s t).play_time = s.play_time := by
  cases t <;> rfl

@[simp] theorem bumpDepth_event (s : PState) (t : StackType) :
    (bumpDepth s t).event = s.event := by
  cases t <;> rfl

@[simp] theorem bumpDepth_track_state (s : PState) (t : StackType) :
    (bumpDepth s t).track_state = s.track_state := by
  cases t <;> rfl

@[simp] theorem bumpDepth_track_update_mask (s : PState) (t : StackType) :
    (bumpDepth s t).track_update_mask = s.track_update_mask := by
  cases t <;> rfl

@[simp] theorem bumpDepth_platform_state (s : PState) (t : StackType) :
    (bumpDepth s t).platform_state = s.platform_state := by
  cases t <;> rfl

@[simp] theorem bumpDepth_platform_update_mask (s : PState) (t : StackType) :
    (bumpDepth s t).platform_update_mask = s.platform_update_mask := by
  cases t <;> rfl

@[simp] theorem bumpDepth_flag (s : PState) (t : StackType) :
    (bumpDepth s t).flag = s.flag := by
  cases t <;> rfl

@[simp] theorem bumpDepth_note_count (s : PState) (t : StackType) :
    (bumpDepth s t).note_count = s.note_count := by
  cases t <;> rfl

@[simp] theorem bumpDepth_rest_count (s : PState) (t : StackType) :
    (bumpDepth s t).rest_count = s.rest_count := by
  cases t <;> rfl

@[simp] theorem bumpDepth_segno_time (s : PState) (t : StackType) :
    (bumpDepth s t).segno_time = s.segno_time := by
  cases t <;> rfl

@[simp] theorem bumpDepth_loop_time (s : PState) (t : StackType) :
    (bumpDepth s t).loop_time = s.loop_time := by
  cases t <;> rfl

@[simp] theorem bumpDepth_loop_position (s : PState) (t : StackType) :
    (bumpDepth s t).loop_position = s.loop_position := by
  cases t <;> rfl

@[simp] theorem bumpDepth_loop_reset_position (s : PState) (t : StackType) :
    (bumpDepth s t).loop_reset_position = s.loop_reset_position := by
  cases t <;> rfl

@[simp] theorem bumpDepth_loop_count (s : PState) (t : StackType) :
    (bumpDepth s t).loop_count = s.loop_count := by
  cases t <;> rfl

@[simp] theorem bumpDepth_loop_reset_count (s : PState) (t : StackType) :
    (bumpDepth s t).loop_reset_count = s.loop_reset_count := by
  cases t <;> rfl

@[simp] theorem bumpDepth_max_stack_depth (s : PState) (t : StackType) :
    (bumpDepth s t).max_stack_depth = s.max_stack_depth := by
  cases t <;> rfl

theorem testBit_setBit_self (m b : Nat) : (setBit m b).testBit b = true := by
  rw [setBit, Nat.shiftLeft_eq, one_mul, Nat.testBit_lor, Nat.testBit_two_pow_self,
    Bool.or_true]

theorem testBit_setBit_of_ne (m : Nat) {b c : Nat} (h : b ≠ c) :
    (setBit m b).testBit c = m.testBit c := by
  rw [setBit, Nat.shiftLeft_eq, one_mul, Nat.testBit_lor, Nat.testBit_two_pow_of_ne h,
    Bool.or_false]

theorem testBit_clrBit_self (m : Nat) {b : Nat} (hb : b < 32) :
    (clrBit m b).testBit b = false := by
  rw [clrBit, Nat.testBit_land, Nat.testBit_xor, Nat.shiftLeft_eq 1 32, one_mul,
    Nat.testBit_two_pow_sub_one, Nat.shiftLeft_eq 1 b, one_mul, Nat.testBit_two_pow_self]
  simp [hb]

theorem testBit_clrBit_of_ne (m : Nat) {b c : Nat} (h : b ≠ c) (hc : c < 32) :
    (clrBit m b).testBit c = m.testBit c := by
  rw [clrBit, Nat.testBit_land, Nat.testBit_xor, Nat.shiftLeft_eq 1 32, one_mul,
    Nat.testBit_two_pow_sub_one, Nat.shiftLeft_eq 1 b, one_mul,
    Nat.testBit_two_pow_of_ne h]
  simp [hc]

@[simp] theorem chSet_track_update_mask (s : PState) (i : Nat) (v : Int) :
    (chSet s i v).track_update_mask = s.track_update_mask := rfl

@[simp] theorem chSet_event (s : PState) (i : Nat) (v : Int) :
    (chSet s i v).event = s.event := rfl

@[simp] theorem chSet_song (s : PState) (i : Nat) (v : Int) :
    (chSet s i v).song = s.song := rfl

@[simp] theorem chSet_track (s : PState) (i : Nat) (v : Int) :
    (chSet s i v).track = s.track := rfl

@[simp] theorem chSet_position (s : PState) (i : Nat) (v : Int) :
    (chSet s i v).position = s.position := rfl

@[simp] theorem chSet_stack (s : PState) (i : Nat) (v : Int) :
    (chSet s i v).stack = s.stack := rfl

@[simp] theorem chSet_on_time (s : PState) (i : Nat) (v : Int) :
    (chSet s i v).on_time = s.on_time := rfl

@[simp] theorem chSet_off_time (s : PState) (i : Nat) (v : Int) :
    (chSet s i v).off_time = s.off_time := rfl

@[simp] theorem chSet_play_time (s : PState) (i : Nat) (v : Int) :
    (chSet s i v).play_time = s.play_time := rfl

@[simp] theorem chSet_enabled (s : PState) (i : Nat) (v : Int) :
    (chSet s i v).enabled = s.enabled := rfl

@[simp] theorem chSet_flag (s : PState) (i : Nat) (v : Int) :
    (chSet s i v).flag = s.flag := rfl

@[simp] theorem chSet_note_count (s : PState) (i : Nat) (v : Int) :
    (chSet s i v).note_count = s.note_count := rfl

@[simp] theorem chSet_rest_count (s : PState) (i : Nat) (v : Int) :
    (chSet s i v).rest_count = s.rest_count := rfl

/-- handle_drum_mode never touches the per-channel dirty mask. -/
theorem handle_drum_mode_mask (s u : PState) (h : handle_drum_mode s = .ok u) :
    u.track_update_mask = s.track_update_mask := by
  unfold handle_drum_mode at h
  dsimp only [] at h
  split at h
  · split at h
    · simp at h
    · unfold stack_push at h
      split at h
      · simp [Res.bind] at h
      · simp only [Res.bind] at h
        rw [Res.ok.injEq] at h
        subst h; simp
  · split at h
    · rw [Res.ok.injEq] at h
      subst h; rfl
    · simp at h
    · simp at h

@[simp] theorem coarse_mask_update (s : PState) (X : Nat) :
    coarse_volume_flag {s with track_update_mask := X} = X.testBit VOL_BIT := rfl

/-- The song carried in a result state equals g (vacuous when no state
is carried). -/
def songPreserved (r : Res) (g : Song) : Prop :=
  match r with
  | .ok s => s.song = g
  | .err _ s => s.song = g
  | .out => True
  | .ub => True

@[simp] theorem songPreserved_ok (s : PState) (g : Song) :
    songPreserved (.ok s) g ↔ s.song = g := Iff.rfl

@[simp] theorem songPreserved_err (m : String) (s : PState) (g : Song) :
    songPreserved (.err m s) g ↔ s.song = g := Iff.rfl

@[simp] theorem songPreserved_out (g : Song) : songPreserved .out g := trivial

@[simp] theorem songPreserved_ub (g : Song) : songPreserved .ub g := trivial

@[simp] theorem write_event_song (s : PState) : (write_event s).song = s.song := by
  unfold write_event
  split
  · rfl
  · split <;> rfl

@[simp] theorem write_event_track (s : PState) : (write_event s).track = s.track := by
  unfold write_event
  split
  · rfl
  · split <;> rfl

@[simp] theorem write_event_position (s : PState) : (write_event s).position = s.position := by
  unfold write_event
  split
  · rfl
  · split <;> rfl

@[simp] theorem write_event_stack (s : PState) : (write_event s).stack = s.stack := by
  unfold write_event
  split
  · rfl
  · split <;> rfl

@[simp] theorem write_event_on_time (s : PState) : (write_event s).on_time = s.on_time := by
  unfold write_event
  split
  · rfl
  · split <;> rfl

@[simp] theorem write_event_off_time (s : PState) : (write_event s).off_time = s.off_time := by
  unfold write_event
  split
  · rfl
  · split <;> rfl

@[simp] theorem write_event_play_time (s : PState) : (write_event s).play_time = s.play_time := by
  unfold write_event
  split
  · rfl
  · split <;> rfl

@[simp] theorem write_event_enabled (s : PState) : (write_event s).enabled = s.enabled := by
  unfold write_event
  split
  · rfl
  · split <;> rfl

@[simp] theorem write_event_event (s : PState) : (write_event s).event = s.event := by
  unfold write_event
  split
  · rfl
  · split <;> rfl

@[simp] theorem write_event_track_state (s : PState) : (write_event s).track_state = s.track_state := by
  unfold write_event
  split
  · rfl
  · split <;> rfl

@[simp] theorem write_event_track_update_mask (s : PState) : (write_event s).track_update_mask = s.track_update_mask := by
  unfold write_event
  split
  · rfl
  · split <;> rfl

@[simp] theorem write_event_platform_state (s : PState) : (write_event s).platform_state = s.platform_state := by
  unfold write_event
  split
  · rfl
  · split <;> rfl

@[simp] theorem write_event_platform_update_mask (s : PState) : (write_event s).platform_update_mask = s.platform_update_mask := by
  unfold write_event
  split
  · rfl
  · split <;> rfl

@[simp] theorem write_event_flag (s : PState) : (write_event s).flag = s.flag := by
  unfold write_event
  split
  · rfl
  · split <;> rfl

@[simp] theorem write_event_loop_position (s : PState) : (write_event s).loop_position = s.loop_position := by
  unfold write_event
  split
  · rfl
  · split <;> rfl

@[simp] theorem write_event_loop_reset_position (s : PState) : (write_event s).loop_reset_position = s.loop_reset_position := by
  unfold write_event
  split
  · rfl
  · split <;> rfl

@[simp] theorem write_event_loop_count (s : PState) : (write_event s).loop_count = s.loop_count := by
  unfold write_event
  split
  · rfl
  · split <;> rfl

@[simp] theorem write_event_loop_reset_count (s : PState) : (write_event s).loop_reset_count = s.loop_reset_count := by
  unfold write_event
  split
  · rfl
  · split <;> rfl

@[simp] theorem write_event_max_stack_depth (s : PState) : (write_event s).max_stack_depth = s.max_stack_depth := by
  unfold write_event
  split
  · rfl
  · split <;> rfl

@[simp] theorem write_event_segno_time (s : PState) : (write_event s).segno_time = s.segno_time := by
  unfold write_event
  split
  · rfl
  · split <;> rfl

@[simp] theorem write_event_loop_time (s : PState) : (write_event s).loop_time = s.loop_time := by
  unfold write_event
  split
  · rfl
  · split <;> rfl

@[simp] theorem write_event_sd_loop (s : PState) : (write_event s).sd_loop = s.sd_loop := by
  unfold write_event
  split
  · rfl
  · split <;> rfl

@[simp] theorem write_event_sd_jump (s : PState) : (write_event s).sd_jump = s.sd_jump := by
  unfold write_event
  split
  · rfl
  · split <;> rfl

@[simp] theorem write_event_sd_drum (s : PState) : (write_event s).sd_drum = s.sd_drum := by
  unfold write_event
  split
  · rfl
  · split <;> rfl

@[simp] theorem write_event_sd_max (s : PState) : (write_event s).sd_max = s.sd_max := by
  unfold write_event
  split
  · rfl
  · split <;> rfl

theorem handle_drum_mode_song (s : PState) : songPreserved (handle_drum_mode s) s.song := by
  unfold handle_drum_mode
  dsimp only []
  split
  · split
    · simp
    · unfold stack_push
      split <;> simp [Res.bind]
  · split <;> simp

theorem handle_event_song (s : PState) : songPreserved (handle_event s) s.song := by
  unfold handle_event
  split
  · split
    · exact handle_drum_mode_song s
    · simp
  · split <;> simp
  · simp
  · simp
  · simp
  · simp
  · simp
  · split <;> simp
  · simp

theorem P_event_hook_song (s : PState) : songPreserved (P_event_hook s) s.song := by
  unfold P_event_hook
  have h := handle_event_song s
  rcases hr : handle_event s with t | ⟨m, t⟩ | _ | _ <;> rw [hr] at h <;> simp [Res.bind] <;>
    simp only [songPreserved_ok, songPreserved_err] at h
  · split <;> simp [h]
  · exact h

@[simp] theorem P_end_hook_song (s : PState) : (P_end_hook s).song = s.song := by
  unfold P_end_hook
  rw [write_event_song]

theorem V_event_hook_song (s : PState) : songPreserved (V_event_hook s) s.song := by
  unfold V_event_hook
  split <;> simp

@[simp] theorem V_end_hook_song (s : PState) : (V_end_hook s).song = s.song := by
  unfold V_end_hook
  split <;> rfl

/-- Every dispatch branch except LOOP_BREAK leaves the song storage
untouched, for any hook table that does. -/
theorem dispatch_song (H : Hooks)
    (hH : ∀ t, songPreserved (H.event_hook t) t.song)
    (hL : ∀ t, (H.loop_hook t).1.song = t.song)
    (hE : ∀ t, (H.end_hook t).song = t.song)
    (s : PState) (idx : Int) (hne : s.event.type ≠ .LOOP_BREAK) :
    songPreserved (dispatch H s idx) s.song := by
  unfold dispatch
  split
  · unfold stack_push
    split <;> simp
  · exact absurd (by assumption) hne
  · split
    · simp
    · dsimp only []
      repeat' split
      all_goals simp
  · have := hH {s with loop_position := s.position, loop_reset_position := s.position}
    simpa using this
  · split
    · simp
    · unfold stack_push
      split <;> simp [Res.bind]
  · split
    · split
      · simp
      · dsimp only []
        split <;> simp
    · split
      · simp [hE]
      · dsimp only []
        split
        · simp [hL]
        · simp [hE, hL]
  · exact hH s

/-- Whenever the fetched event is not LOOP_BREAK, step_event leaves the
song storage untouched, for any hook table that does. -/
theorem step_event_song (H : Hooks)
    (hH : ∀ t, songPreserved (H.event_hook t) t.song)
    (hL : ∀ t, (H.loop_hook t).1.song = t.song)
    (hE : ∀ t, (H.end_hook t).song = t.song)
    (s : PState) (hne : ∀ e, fetched s = some e → e.type ≠ .LOOP_BREAK) :
    songPreserved (step_event H s) s.song := by
  unfold step_event
  dsimp only []
  rw [fetched_snap, fetched_accum]
  rcases hf : fetched s with _ | e
  · have h := dispatch_song H hH hL hE
      {snap (accum s) with
        position := (snap (accum s)).position + 1,
        event := {type := .END, param := 0, on_time := 0, off_time := 0},
        on_time := 0, off_time := 0} (snap (accum s)).position (by simp)
    simpa using h
  · have h := dispatch_song H hH hL hE
      {snap (accum s) with
        position := (snap (accum s)).position + 1, event := e,
        on_time := e.on_time, off_time := e.off_time} (snap (accum s)).position
      (by simpa using hne e hf)
    simpa using h

end BasicLemmas

/-- Event construction shorthand used by concrete scenarios. -/
def mkEv (t : EType) (p : Int) (a b : Nat) : Ev :=
  {type := t, param := p, on_time := a, off_time := b}

/-- The stored-song component of a result (d when no state carried). -/
def songOfRes (r : Res) (d : Song) : Song :=
  match r with
  | .ok s => s.song
  | .err _ s => s.song
  | _ => d

/-- The local last-event parameter of a result (d when no state). -/
def eventParamOf (r : Res) (d : Int) : Int :=
  match r with
  | .ok s => s.event.param
  | .err _ s => s.event.param
  | _ => d

/-- A song whose track 0 is [LOOP_START, LOOP_BREAK(param 7), LOOP_END(2), END]. -/
def c4song : Song :=
  {tracks := [(0, [mkEv .LOOP_START 0 0 0, mkEv .LOOP_BREAK 7 0 0,
                   mkEv .LOOP_END 2 0 0, mkEv .END 0 0 0])],
   platform_commands := []}

/-- C4 counterexample: after stepping LOOP_START then LOOP_BREAK, the
event stored in the shared track data has its parameter rewritten (7
becomes the loop frame's end position 0) — the track storage IS mutated
— while the locally fetched copy handed onward still carries 7; the
claim asserts exactly the opposite on both counts. -/
theorem c4_event_mutation_cex :
    songOfRes ((step_P (initState c4song 0 0)).bind step_P) c4song ≠ c4song ∧
    eventParamOf ((step_P (initState c4song 0 0)).bind step_P) 0 = 7 :=
  ⟨by decide, by decide⟩

/-- C4 (amended): the LOOP_BREAK back-patch writes the enclosing loop
frame's end position into the event stored in the track (through the
fetched-event pointer) — the single mutation of the shared Song/Track
data — while the locally fetched event copy keeps its original
parameter; every step whose fetched event is not a LOOP_BREAK (and every
LOOP_BREAK refused by the stack check) leaves the stored song data
untouched, for the Player and the Track_Validator alike. -/
theorem c4_event_mutation (s : PState) :
    (∀ e, fetched s = some e → e.type ≠ .LOOP_BREAK →
      songPreserved (step_P s) s.song ∧ songPreserved (step_V s) s.song) ∧
    (fetched s = none →
      songPreserved (step_P s) s.song ∧ songPreserved (step_V s) s.song) ∧
    (∀ e f rest, fetched s = some e → e.type = .LOOP_BREAK →
      s.stack = f :: rest → f.type = .LOOP →
      ∃ u, step_P s = .ok u ∧
        u.song = patchParam s.song s.track s.position f.end_position ∧
        u.event = e ∧
        (f.loop_count = 1 → u.position = f.end_position ∧ u.stack = rest) ∧
        (f.loop_count ≠ 1 → u.position = s.position + 1 ∧ u.stack = s.stack)) ∧
    (∀ e f rest, fetched s = some e → e.type = .LOOP_BREAK →
      s.stack = f :: rest → f.type ≠ .LOOP →
      songPreserved (step_P s) s.song) ∧
    (∀ e, fetched s = some e → e.type = .LOOP_BREAK → s.stack = [] →
      songPreserved (step_P s) s.song) := by
  refine ⟨?_, ?_, ?_, ?_, ?_⟩
  · intro e hf hne
    constructor
    · exact step_event_song P_hooks P_event_hook_song (fun t => rfl) P_end_hook_song s
        (fun e' hf' => by rw [hf] at hf'; cases hf'; exact hne)
    · exact step_event_song V_hooks V_event_hook_song (fun t => rfl) V_end_hook_song s
        (fun e' hf' => by rw [hf] at hf'; cases hf'; exact hne)
  · intro hf
    constructor
    · exact step_event_song P_hooks P_event_hook_song (fun t => rfl) P_end_hook_song s
        (fun e' hf' => by rw [hf] at hf'; cases hf')
    · exact step_event_song V_hooks V_event_hook_song (fun t => rfl) V_end_hook_song s
        (fun e' hf' => by rw [hf] at hf'; cases hf')
  · intro e f rest hf he hs hft
    unfold step_P step_event
    dsimp only []
    rw [fetched_snap, fetched_accum, hf]
    unfold dispatch
    dsimp only []
    rw [he]
    dsimp only []
    simp only [snap_stack, accum_stack]
    rw [hs]
    unfold stack_top
    dsimp only []
    rw [if_pos hft]
    dsimp only []
    unfold stack_pop
    dsimp only []
    rw [if_pos hft]
    by_cases hc : f.loop_count = 1
    · rw [if_pos hc]
      dsimp only []
      refine ⟨_, rfl, ?_, ?_, fun _ => ⟨rfl, rfl⟩, fun h => absurd hc h⟩
      · simp
      · simp
    · rw [if_neg hc]
      refine ⟨_, rfl, ?_, ?_, fun h => absurd h hc, fun _ => ⟨by simp, by simp [hs]⟩⟩
      · simp
      · simp
  · intro e f rest hf he hs hft
    unfold step_P step_event
    dsimp only []
    rw [fetched_snap, fetched_accum, hf]
    unfold dispatch
    dsimp only []
    rw [he]
    dsimp only []
    simp only [snap_stack, accum_stack]
    rw [hs]
    unfold stack_top
    dsimp only []
    rw [if_neg hft]
    simp
  · intro e hf he hs
    unfold step_P step_event
    dsimp only []
    rw [fetched_snap, fetched_accum, hf]
    unfold dispatch
    dsimp only []
    rw [he]
    dsimp only []
    simp only [snap_stack, accum_stack]
    rw [hs]
    unfold stack_top
    simp

/-- C4 witness: the non-LOOP_BREAK part of the amended statement
evaluated on the first step of the concrete song (a LOOP_START). -/
theorem c4_event_mutation_witness :
    songPreserved (step_P (initState c4song 0 0)) c4song ∧
    songPreserved (step_V (initState c4song 0 0)) c4song :=
  (c4_event_mutation (initState c4song 0 0)).1 (mkEv .LOOP_START 0 0 0)
    (by decide) (by decide)

/-- The message of an error result. -/
def errMsgOf (r : Res) : Option String :=
  match r with
  | .err m _ => some m
  | _ => none

/-- A song with two tracks each holding a single explicit END. -/
def c2song : Song :=
  {tracks := [(0, [mkEv .END 0 0 0]), (1, [mkEv .END 0 0 0])], platform_commands := []}

/-- C2 counterexample: an END reached with a Drum frame on top does not
pop-and-resume as the claim states; it raises the drum-mismatch
control-flow error instead. -/
theorem c2_end_pops_jump_cex :
    (step_P {initState c2song 1 0 with stack := [⟨.DRUM_MODE, 0, 1, 2, 3⟩]}).isOk = false ∧
    errMsgOf (step_P {initState c2song 1 0 with stack := [⟨.DRUM_MODE, 0, 1, 2, 3⟩]}) =
      some "drum routine contains no note" :=
  ⟨by decide, by decide⟩

/-- C2 (amended): when step_event processes an END event (explicit or
synthesized) with a non-empty control stack, the top frame must be a
Jump frame — it is popped and execution resumes at its saved track and
position; any other top frame (Loop, Drum, or the sentinel) instead
raises the control-flow error naming the actual top tag and leaves the
stack intact. -/
theorem c2_end_pops_jump (H : Hooks) (s : PState) (f : Player_Stack)
    (rest : List Player_Stack) (hs : s.stack = f :: rest)
    (hf : fetched s = none ∨ ∃ e, fetched s = some e ∧ e.type = .END) :
    (f.type = .JUMP → ∃ u, step_event H s = .ok u ∧
      u.track = f.track ∧ u.position = f.position ∧ u.stack = rest) ∧
    (f.type ≠ .JUMP → ∃ u, step_event H s = .err (underflowMsg f.type) u ∧
      u.stack = s.stack) := by
  have main : ∀ (X : PState) (idx : Int), X.event.type = .END → X.stack = f :: rest →
      X.track = s.track →
      (f.type = .JUMP → ∃ u, dispatch H X idx = .ok u ∧
        u.track = f.track ∧ u.position = f.position ∧ u.stack = rest) ∧
      (f.type ≠ .JUMP → ∃ u, dispatch H X idx = .err (underflowMsg f.type) u ∧
        u.stack = s.stack) := by
    intro X idx hXe hXs hXt
    unfold dispatch
    rw [hXe]
    dsimp only []
    rw [hXs]
    unfold stack_top stack_pop
    dsimp only []
    constructor
    · intro hj
      rw [if_pos hj]
      dsimp only []
      rw [if_pos hj]
      exact ⟨_, rfl, by simp, by simp, by simp⟩
    · intro hj
      rw [if_neg hj]
      exact ⟨_, rfl, by rw [hXs, hs]⟩
  unfold step_event
  dsimp only []
  rw [fetched_snap, fetched_accum]
  rcases hf with hf | ⟨e, hf, he⟩ <;> rw [hf] <;> dsimp only []
  · refine main _ _ ?_ ?_ ?_
    · rfl
    · simp [hs]
    · simp
  · refine main _ _ ?_ ?_ ?_
    · exact he
    · simp [hs]
    · simp

/-- C2 witness: the amended statement evaluated with a Jump frame on
top: the END pops it and resumes at the saved track and position. -/
theorem c2_end_pops_jump_witness :
    (step_event P_hooks {initState c2song 1 0 with stack := [⟨.JUMP, 0, 1, 0, 0⟩]}).isOk
      = true := by
  obtain ⟨u, hu, -, -, -⟩ :=
    (c2_end_pops_jump P_hooks {initState c2song 1 0 with stack := [⟨.JUMP, 0, 1, 0, 0⟩]}
      ⟨.JUMP, 0, 1, 0, 0⟩ [] rfl (Or.inr ⟨mkEv .END 0 0 0, by decide, rfl⟩)).1 rfl
  rw [hu]
  rfl

/-- C3: a push of an (max_stack_depth + 1)-th frame raises the
stack-overflow error exactly at that push — a push attempted at depth
max_stack_depth fails and one below succeeds — for each frame kind:
LOOP_START (Loop), JUMP with a resolvable target (Jump) and drum-mode
entry with a resolvable target (Drum); the overflow raised while
handling JUMP or a drum-mode entry surfaces with the stack-overflow
message, not as another fault. -/
theorem c3_stack_overflow (s : PState) :
    (∀ e, fetched s = some e → e.type = .LOOP_START →
      (s.max_stack_depth ≤ s.stack.length →
        ∃ u, step_P s = .err "stack overflow (depth limit reached)" u ∧
          u.stack = s.stack) ∧
      (s.stack.length < s.max_stack_depth →
        ∃ u, step_P s = .ok u ∧ u.stack.length = s.stack.length + 1)) ∧
    (∀ e tr, fetched s = some e → e.type = .JUMP →
      s.song.get_track e.param = some tr →
      (s.max_stack_depth ≤ s.stack.length →
        ∃ u, step_P s = .err "stack overflow (depth limit reached)" u ∧
          u.stack = s.stack) ∧
      (s.stack.length < s.max_stack_depth →
        ∃ u, step_P s = .ok u ∧ u.stack.length = s.stack.length + 1)) ∧
    (∀ e tr, fetched s = some e → e.type = .NOTE →
      chGet s DRUM_MODE_slot ≠ 0 → get_stack_type s.stack ≠ .DRUM_MODE →
      s.song.get_track (chGet s DRUM_MODE_slot + e.param) = some tr →
      (s.max_stack_depth ≤ s.stack.length →
        ∃ u, step_P s = .err "stack overflow (depth limit reached)" u ∧
          u.stack = s.stack) ∧
      (s.stack.length < s.max_stack_depth →
        ∃ u, step_P s = .ok u ∧ u.stack.length = s.stack.length + 1)) := by
  refine ⟨?_, ?_, ?_⟩
  · intro e hf he
    unfold step_P step_event
    dsimp only []
    rw [fetched_snap, fetched_accum, hf]
    unfold dispatch
    dsimp only []
    rw [he]
    dsimp only []
    unfold stack_push
    simp only [snap_stack, accum_stack, snap_max_stack_depth, accum_max_stack_depth]
    constructor
    · intro hover
      rw [if_pos hover]
      exact ⟨_, rfl, by simp⟩
    · intro hunder
      rw [if_neg (by omega)]
      exact ⟨_, rfl, by simp⟩
  · intro e tr hf he hg
    unfold step_P step_event
    dsimp only []
    rw [fetched_snap, fetched_accum, hf]
    unfold dispatch
    dsimp only []
    rw [he]
    dsimp only []
    simp only [snap_song, accum_song]
    rw [hg]
    unfold stack_push
    simp only [snap_stack, accum_stack, snap_max_stack_depth, accum_max_stack_depth]
    constructor
    · intro hover
      rw [if_pos hover]
      exact ⟨_, rfl, by simp⟩
    · intro hunder
      rw [if_neg (by omega)]
      simp only [Res.bind_ok]
      exact ⟨_, rfl, by simp⟩
  · intro e tr hf he hdm htop hg
    unfold step_P step_event
    dsimp only []
    rw [fetched_snap, fetched_accum, hf]
    unfold dispatch
    dsimp only []
    rw [he]
    dsimp only []
    unfold P_hooks P_event_hook handle_event
    dsimp only []
    rw [he]
    dsimp only []
    simp only [chGet] at hdm ⊢
    simp only [snap_track_state, accum_track_state]
    rw [if_pos hdm]
    unfold handle_drum_mode
    dsimp only []
    simp only [snap_stack, accum_stack]
    rw [if_pos htop]
    simp only [chGet, snap_track_state, accum_track_state, snap_song, accum_song]
    simp only [chGet] at hg
    rw [hg]
    unfold stack_push
    simp only [snap_stack, accum_stack, snap_max_stack_depth, accum_max_stack_depth]
    constructor
    · intro hover
      rw [if_pos hover]
      exact ⟨_, rfl, by simp⟩
    · intro hunder
      rw [if_neg (by omega)]
      simp only [Res.bind_ok]
      split
      · exact ⟨_, rfl, by simp⟩
      · exact ⟨_, rfl, by simp⟩

/-- A song whose track 0 is a single LOOP_START. -/
def c3song : Song := {tracks := [(0, [mkEv .LOOP_START 0 0 0])], platform_commands := []}

/-- C3 witness: with the stack already at the depth limit of 10 the
LOOP_START push fails, and from an empty stack it succeeds. -/
theorem c3_stack_overflow_witness :
    (step_P {initState c3song 0 0 with
      stack := List.replicate 10 ⟨.LOOP, 0, 0, 0, 0⟩}).isOk = false ∧
    (step_P (initState c3song 0 0)).isOk = true := by
  obtain ⟨u, hu, -⟩ :=
    ((c3_stack_overflow {initState c3song 0 0 with
        stack := List.replicate 10 ⟨.LOOP, 0, 0, 0, 0⟩}).1
      (mkEv .LOOP_START 0 0 0) (by decide) rfl).1 (by decide)
  obtain ⟨v, hv, -⟩ :=
    ((c3_stack_overflow (initState c3song 0 0)).1
      (mkEv .LOOP_START 0 0 0) (by decide) rfl).2 (by decide)
  constructor
  · rw [hu]; rfl
  · rw [hv]; rfl

/-- C10: when a JUMP's target track, or a drum-mode entry's target
track, is absent from the song, the UnresolvedReference error is raised
with the control stack, current track, per-channel state, pending on/off
durations (those copied from the faulting event at its fetch) and the
song storage all exactly as they were before the failed resolution. -/
theorem c10_unresolved_reference (s : PState) :
    (∀ e, fetched s = some e → e.type = .JUMP → s.song.get_track e.param = none →
      ∃ u, step_P s = .err "jump destination doesn\x27t exist" u ∧
        u.stack = s.stack ∧ u.track = s.track ∧ u.track_state = s.track_state ∧
        u.on_time = e.on_time ∧ u.off_time = e.off_time ∧ u.song = s.song) ∧
    (∀ e, fetched s = some e → e.type = .NOTE →
      chGet s DRUM_MODE_slot ≠ 0 → get_stack_type s.stack ≠ .DRUM_MODE →
      s.song.get_track (chGet s DRUM_MODE_slot + e.param) = none →
      ∃ u, step_P s = .err ("drum mode error: track *" ++
          toString (e.param + chGet s DRUM_MODE_slot) ++ " is not defined (base " ++
          toString (chGet s DRUM_MODE_slot) ++ ", note " ++ toString e.param ++ ")") u ∧
        u.stack = s.stack ∧ u.track = s.track ∧ u.track_state = s.track_state ∧
        u.on_time = e.on_time ∧ u.off_time = e.off_time ∧ u.song = s.song) := by
  constructor
  · intro e hf he hg
    unfold step_P step_event
    dsimp only []
    rw [fetched_snap, fetched_accum, hf]
    unfold dispatch
    dsimp only []
    rw [he]
    dsimp only []
    simp only [snap_song, accum_song]
    rw [hg]
    refine ⟨_, rfl, ?_, ?_, ?_, ?_, ?_, ?_⟩ <;> simp
  · intro e hf he hdm htop hg
    unfold step_P step_event
    dsimp only []
    rw [fetched_snap, fetched_accum, hf]
    unfold dispatch
    dsimp only []
    rw [he]
    dsimp only []
    unfold P_hooks P_event_hook handle_event
    dsimp only []
    rw [he]
    dsimp only []
    simp only [chGet] at hdm ⊢
    simp only [snap_track_state, accum_track_state]
    rw [if_pos hdm]
    unfold handle_drum_mode
    dsimp only []
    simp only [snap_stack, accum_stack]
    rw [if_pos htop]
    simp only [chGet, snap_track_state, accum_track_state, snap_song, accum_song]
    simp only [chGet] at hg
    rw [hg]
    simp only [Res.bind_err]
    refine ⟨_, rfl, ?_, ?_, ?_, ?_, ?_, ?_⟩
    all_goals simp

/-- A song whose track 0 jumps to the missing track 5. -/
def c10song : Song := {tracks := [(0, [mkEv .JUMP 5 0 0])], platform_commands := []}

/-- C10 witness: the unresolved JUMP of the concrete song raises the
jump error with the stack, track, channel state and song intact. -/
theorem c10_unresolved_reference_witness :
    errMsgOf (step_P (initState c10song 0 0)) = some "jump destination doesn\x27t exist" := by
  obtain ⟨u, hu, -⟩ :=
    (c10_unresolved_reference (initState c10song 0 0)).1
      (mkEv .JUMP 5 0 0) (by decide) rfl (by decide)
  rw [hu]
  rfl

/-- Drum-mode entry: a NOTE in drum mode with a resolvable target and
free stack space pushes the Drum frame saving the caller's track, its
post-increment position and the NOTE's own pending on/off durations,
then switches to the routine at position 0 with zeroed durations. -/
theorem drum_entry_step (s : PState) (e : Ev)
    (rt : List Ev)
    (hf : fetched s = some e) (he : e.type = .NOTE)
    (hdm : chGet s DRUM_MODE_slot ≠ 0)
    (htop : get_stack_type s.stack ≠ .DRUM_MODE)
    (hg : s.song.get_track (chGet s DRUM_MODE_slot + e.param) = some rt)
    (hdepth : s.stack.length < s.max_stack_depth) :
    ∃ u, step_P s = .ok u ∧
      u.track = chGet s DRUM_MODE_slot + e.param ∧ u.position = 0 ∧
      u.on_time = 0 ∧ u.off_time = 0 ∧
      u.stack = ⟨.DRUM_MODE, s.track, s.position + 1,
                 (e.on_time : Int), (e.off_time : Int)⟩ :: s.stack ∧
      u.song = s.song ∧ u.track_state = s.track_state := by
  unfold step_P step_event
  dsimp only []
  rw [fetched_snap, fetched_accum, hf]
  unfold dispatch
  dsimp only []
  rw [he]
  dsimp only []
  unfold P_hooks P_event_hook handle_event
  dsimp only []
  rw [he]
  dsimp only []
  simp only [chGet] at hdm hg
  simp only [chGet, snap_track_state, accum_track_state]
  rw [if_pos hdm]
  unfold handle_drum_mode
  dsimp only []
  simp only [snap_stack, accum_stack]
  rw [if_pos htop]
  simp only [chGet, snap_track_state, accum_track_state, snap_song, accum_song]
  rw [hg]
  unfold stack_push
  simp only [snap_stack, accum_stack, snap_max_stack_depth, accum_max_stack_depth]
  rw [if_neg (by omega)]
  simp only [Res.bind_ok]
  split
  · refine ⟨_, rfl, ?_, ?_, ?_, ?_, ?_, ?_, ?_⟩ <;> simp [chGet]
  · refine ⟨_, rfl, ?_, ?_, ?_, ?_, ?_, ?_, ?_⟩ <;> simp [chGet]

/-- Drum-mode exit: a NOTE in drum mode with a Drum frame on top
restores the pending on/off durations and the track/position saved in
the frame, and pops it. -/
theorem drum_exit_step (t : PState) (e2 : Ev) (fr : Player_Stack)
    (rest : List Player_Stack)
    (hf : fetched t = some e2) (he2 : e2.type = .NOTE)
    (hdm : chGet t DRUM_MODE_slot ≠ 0)
    (hst : t.stack = fr :: rest) (hfr : fr.type = .DRUM_MODE) :
    ∃ u, step_P t = .ok u ∧ u.track = fr.track ∧ u.position = fr.position ∧
      u.on_time = fr.end_position.toNat ∧ u.off_time = fr.loop_count.toNat ∧
      u.stack = rest := by
  unfold step_P step_event
  dsimp only []
  rw [fetched_snap, fetched_accum, hf]
  unfold dispatch
  dsimp only []
  rw [he2]
  dsimp only []
  unfold P_hooks P_event_hook handle_event
  dsimp only []
  rw [he2]
  dsimp only []
  simp only [chGet] at hdm
  simp only [chGet, snap_track_state, accum_track_state]
  rw [if_pos hdm]
  unfold handle_drum_mode
  dsimp only []
  simp only [snap_stack, accum_stack]
  rw [hst]
  rw [if_neg (by simp [get_stack_type, hfr])]
  unfold stack_pop
  dsimp only []
  rw [if_pos hfr]
  simp only [Res.bind_ok]
  split
  · refine ⟨_, rfl, ?_, ?_, ?_, ?_, ?_⟩ <;> simp
  · refine ⟨_, rfl, ?_, ?_, ?_, ?_, ?_⟩ <;> simp

/-- C6: drum-mode round trip: a NOTE entering drum mode followed
immediately by the called routine's own NOTE restores the caller's
pending on/off durations (the calling NOTE's own), the caller's track
and its position just past the calling NOTE, and pops the Drum frame,
leaving the control stack as it was. -/
theorem c6_drum_round_trip (s : PState) (e e2 : Ev) (rt : List Ev)
    (hf : fetched s = some e) (he : e.type = .NOTE)
    (hdm : chGet s DRUM_MODE_slot ≠ 0)
    (htop : get_stack_type s.stack ≠ .DRUM_MODE)
    (hg : s.song.get_track (chGet s DRUM_MODE_slot + e.param) = some rt)
    (hdepth : s.stack.length < s.max_stack_depth)
    (hrt : getEvent rt 0 = some e2) (he2 : e2.type = .NOTE) :
    ∃ u, (step_P s).bind step_P = .ok u ∧
      u.track = s.track ∧ u.position = s.position + 1 ∧
      u.on_time = e.on_time ∧ u.off_time = e.off_time ∧ u.stack = s.stack := by
  obtain ⟨u1, h1, h1track, h1pos, h1on, h1off, h1stack, h1song, h1ts⟩ :=
    drum_entry_step s e rt hf he hdm htop hg hdepth
  obtain ⟨u2, h2, h2track, h2pos, h2on, h2off, h2stack⟩ :=
    drum_exit_step u1 e2
      ⟨.DRUM_MODE, s.track, s.position + 1, (e.on_time : Int), (e.off_time : Int)⟩
      s.stack
      (by unfold fetched; rw [h1song, h1track, h1pos, hg]; simpa using hrt)
      he2
      (by simpa [chGet, h1ts] using hdm)
      h1stack rfl
  refine ⟨u2, ?_, ?_, ?_, ?_, ?_, ?_⟩
  · rw [h1]; simpa using h2
  · simpa using h2track
  · simpa using h2pos
  · simpa using h2on
  · simpa using h2off
  · exact h2stack

/-- A song for the drum round trip: track 0 calls drum routine 11
(base offset 10 + note parameter 1). -/
def c6song : Song :=
  {tracks := [(0, [mkEv .NOTE 1 4 2, mkEv .END 0 0 0]),
              (11, [mkEv .NOTE 0 9 9, mkEv .END 0 0 0])],
   platform_commands := []}

/-- A player on c6song with drum mode active (base offset 10). -/
def c6state : PState :=
  {initState c6song 0 0 with
    track_state := (List.replicate CMD_RANGE 0).set DRUM_MODE_slot 10}

/-- C6 witness: the round trip evaluated on the concrete drum call. -/
theorem c6_drum_round_trip_witness :
    ((step_P c6state).bind step_P).isOk = true := by
  obtain ⟨u, hu, -, -, -, -, -⟩ :=
    c6_drum_round_trip c6state (mkEv .NOTE 1 4 2) (mkEv .NOTE 0 9 9)
      [mkEv .NOTE 0 9 9, mkEv .END 0 0 0]
      (by decide) rfl (by decide) (by decide) (by decide) (by decide) (by decide) rfl
  rw [hu]
  rfl

/-- Ghost observer for the validator run, following the spec's words:
alongside the run it records the played time at the last SEGNO event
processed (none when no SEGNO has been reached). -/
def vrunSeg (fuel : Nat) (s : PState) (acc : Option Nat) : Res × Option Nat :=
  if s.enabled = false then (.ok s, acc)
  else match fuel with
    | 0 => (.out, acc)
    | f + 1 =>
      match step_V s with
      | .ok u => vrunSeg f u (if u.event.type = .SEGNO then some u.play_time else acc)
      | r => (r, acc)

/-- The ghost observer runs the same validator loop. -/
theorem vrunSeg_fst (fuel : Nat) (s : PState) (acc : Option Nat) :
    (vrunSeg fuel s acc).1 = vrun fuel s := by
  induction fuel generalizing s acc with
  | zero =>
    unfold vrunSeg vrun
    split <;> rfl
  | succ f ih =>
    unfold vrunSeg vrun
    split
    · rfl
    · dsimp only []
      rcases hr : step_V s with u | ⟨m, u⟩ | _ | _ <;> dsimp only []
      · exact ih u _
      · rfl
      · rfl
      · rfl

/-- Validator dispatch: the played time and the last-fetched event pass
through unchanged; the recorded SEGNO time changes exactly on a SEGNO
event; the loop length is written exactly by the disabling END path. -/
theorem dispatch_V_props (X u : PState) (idx : Int)
    (h : dispatch V_hooks X idx = .ok u) :
    u.play_time = X.play_time ∧ u.event = X.event ∧
    (u.segno_time = if X.event.type = .SEGNO then (X.play_time : Int) else X.segno_time) ∧
    (X.enabled = true → u.enabled = true → u.loop_time = X.loop_time) ∧
    (u.enabled = false → X.enabled = true →
      u.loop_time = if 0 ≤ X.segno_time then X.play_time - X.segno_time.toNat
                    else X.loop_time) ∧
    (u.enabled = false → X.enabled = true → X.event.type = .END) := by
  unfold dispatch at h
  split at h
  · -- LOOP_START
    rename_i heq
    unfold stack_push at h
    repeat' split at h
    all_goals first
      | (simp at h; done)
      | (simp only [Res.ok.injEq] at h
         subst h
         exact ⟨by simp, by simp, by rw [if_neg (by simp [heq])] <;> simp, by simp,
                fun h1 h2 => by simp [h2] at h1, fun h1 h2 => by simp [h2] at h1⟩)
  · -- LOOP_BREAK
    rename_i heq
    dsimp only [] at h
    repeat' split at h
    all_goals first
      | (simp at h; done)
      | (simp only [Res.ok.injEq] at h
         subst h
         exact ⟨by simp, by simp, by rw [if_neg (by simp [heq])] <;> simp, by simp,
                fun h1 h2 => by simp [h2] at h1, fun h1 h2 => by simp [h2] at h1⟩)
  · -- LOOP_END
    rename_i heq
    dsimp only [] at h
    repeat' split at h
    all_goals first
      | (simp at h; done)
      | (simp only [Res.ok.injEq] at h
         subst h
         exact ⟨by simp, by simp, by rw [if_neg (by simp [heq])] <;> simp, by simp,
                fun h1 h2 => by simp [h2] at h1, fun h1 h2 => by simp [h2] at h1⟩)
  · -- SEGNO
    rename_i heq
    unfold V_hooks V_event_hook at h
    dsimp only [] at h
    rw [if_pos (by simpa using heq)] at h
    simp only [Res.ok.injEq] at h
    subst h
    exact ⟨by simp, by simp, by rw [if_pos heq] <;> simp, by simp,
           fun h1 h2 => by simp [h2] at h1, fun h1 h2 => by simp [h2] at h1⟩
  · -- JUMP
    rename_i heq
    try dsimp only [] at h
    unfold stack_push at h
    repeat' split at h
    all_goals first
      | (simp at h; done)
      | (simp [Res.bind] at h; done)
      | (simp only [Res.bind, Res.ok.injEq] at h
         subst h
         exact ⟨by simp, by simp, by rw [if_neg (by simp [heq])] <;> simp, by simp,
                fun h1 h2 => by simp [h2] at h1, fun h1 h2 => by simp [h2] at h1⟩)
  · -- END
    rename_i heq
    split at h
    · -- non-empty stack: pop the Jump frame
      dsimp only [] at h
      repeat' split at h
      all_goals first
        | (simp at h; done)
        | (simp only [Res.ok.injEq] at h
           subst h
           exact ⟨by simp, by simp, by rw [if_neg (by simp [heq])] <;> simp, by simp,
                  fun h1 h2 => by simp [h2] at h1, fun h1 h2 => by simp [h2] at h1⟩)
    · -- empty stack: both paths disable and run the end hook
      dsimp only [] at h
      rw [show (V_hooks.loop_hook X).2 = false from rfl] at h
      simp only [Bool.false_eq_true, if_false] at h
      split at h
      all_goals (
        simp only [Res.ok.injEq] at h
        subst h
        refine ⟨by simp [V_hooks, V_end_hook, apply_ite],
                by simp [V_hooks, V_end_hook, apply_ite], ?_, ?_, ?_, ?_⟩
        · rw [if_neg (by simp [heq])]
          simp [V_hooks, V_end_hook, apply_ite]
        · intro h1 h2
          simp [V_hooks, V_end_hook, apply_ite] at h2
        · intro h1 h2
          by_cases hsg : (0 : Int) ≤ X.segno_time
          · simp [V_hooks, V_end_hook, hsg]
          · simp [V_hooks, V_end_hook, hsg]
        · intro h1 h2
          exact heq)
  · -- generic events: the validator event hook
    unfold V_hooks V_event_hook at h
    dsimp only [] at h
    split at h
    · rename_i hseg
      simp only [Res.ok.injEq] at h
      subst h
      exact ⟨by simp, by simp, by rw [if_pos hseg] <;> simp, by simp,
             fun h1 h2 => by simp [h2] at h1, fun h1 h2 => by simp [h2] at h1⟩
    · rename_i hseg
      simp only [Res.ok.injEq] at h
      subst h
      exact ⟨rfl, rfl, by rw [if_neg hseg], by simp,
             fun h1 h2 => by rw [h2] at h1; exact absurd h1 (by simp),
             fun h1 h2 => by rw [h2] at h1; exact absurd h1 (by simp)⟩

/-- One validator step from an enabled state: the recorded SEGNO time
changes exactly when the processed event is a SEGNO (to the accumulated
played time), the loop length is written exactly at the disabling step
(from the previously recorded SEGNO time), and played time never
decreases. -/
theorem step_V_props (s u : PState) (hs : s.enabled = true) (h : step_V s = .ok u) :
    (u.segno_time = if u.event.type = .SEGNO then (u.play_time : Int) else s.segno_time) ∧
    (u.enabled = true → u.loop_time = s.loop_time) ∧
    (u.enabled = false →
      u.loop_time = if 0 ≤ s.segno_time then u.play_time - s.segno_time.toNat
                    else s.loop_time) ∧
    s.play_time ≤ u.play_time ∧
    (u.enabled = false → u.event.type = .END) := by
  unfold step_V step_event at h
  dsimp only [] at h
  rw [fetched_snap, fetched_accum] at h
  rcases hf : fetched s with _ | e <;> rw [hf] at h <;> dsimp only [] at h <;>
    obtain ⟨hp, hev, hseg, hloop, hdis, hend⟩ := dispatch_V_props _ _ _ h <;>
    simp only [snap_play_time, accum_play_time, snap_segno_time, accum_segno_time,
      snap_loop_time, accum_loop_time, snap_enabled, accum_enabled] at hp hev hseg hloop hdis hend
  · refine ⟨?_, ?_, ?_, ?_, ?_⟩
    · simp [hseg, hev, hp]
    · intro h1
      rw [hloop hs h1]
    · intro h1
      simp [hdis h1 hs, hp]
    · omega
    · intro h1
      simp [hev]
  · refine ⟨?_, ?_, ?_, ?_, ?_⟩
    · simp [hseg, hev, hp]
    · intro h1
      rw [hloop hs h1]
    · intro h1
      simp [hdis h1 hs, hp]
    · omega
    · intro h1
      have h2 := hend h1 hs
      simp only [hev]
      simpa using h2

/-- Ghost-run invariant: from an enabled state whose recorded SEGNO
time agrees with the accumulator and whose loop length is still 0, a
completed validator run ends with loop length equal to the final played
time minus the accumulated last-SEGNO time (0 when no SEGNO was seen),
and the accumulator never exceeds the final played time. -/
theorem vrunSeg_loop_length (fuel : Nat) (s : PState) (acc : Option Nat)
    (hen : s.enabled = true)
    (hacc : match acc with
            | none => s.segno_time = -1
            | some S => s.segno_time = (S : Int) ∧ S ≤ s.play_time)
    (hlt : s.loop_time = 0) :
    ∀ f racc, vrunSeg fuel s acc = (.ok f, racc) →
      (f.loop_time = match racc with
        | none => 0
        | some S => f.play_time - S) ∧
      (∀ S, racc = some S → S ≤ f.play_time) := by
  induction fuel generalizing s acc with
  | zero =>
    intro f racc h
    unfold vrunSeg at h
    rw [if_neg (by simp [hen])] at h
    dsimp only [] at h
    simp at h
  | succ fl ih =>
    intro f racc h
    unfold vrunSeg at h
    rw [if_neg (by simp [hen])] at h
    dsimp only [] at h
    rcases hr : step_V s with u | ⟨m, u⟩ | _ | _ <;> rw [hr] at h <;> dsimp only [] at h
    · obtain ⟨hseg, hloopT, hloopF, hple, hendE⟩ := step_V_props s u hen hr
      by_cases hu : u.enabled = true
      · refine ih u _ hu ?_ (by rw [hloopT hu]; exact hlt) f racc h
        by_cases hsev : u.event.type = .SEGNO
        · rw [if_pos hsev]
          exact ⟨by rw [hseg, if_pos hsev], le_refl _⟩
        · rw [if_neg hsev]
          rcases acc with _ | S
          · simpa [hseg, if_neg hsev] using hacc
          · obtain ⟨h1, h2⟩ := hacc
            exact ⟨by rw [hseg, if_neg hsev]; exact h1, le_trans h2 hple⟩
      · have hu0 : u.enabled = false := by simpa using hu
        have hnot : ¬ u.event.type = .SEGNO := by
          rw [hendE hu0]
          simp
        rw [if_neg hnot] at h
        unfold vrunSeg at h
        rw [if_pos hu0] at h
        simp only [Prod.mk.injEq, Res.ok.injEq] at h
        obtain ⟨h1, h2⟩ := h
        subst h1
        subst h2
        have hl := hloopF hu0
        rcases acc with _ | S
        · refine ⟨?_, ?_⟩
          · rw [hl, if_neg (by rw [hacc]; decide)]
            exact hlt
          · intro S hS
            exact absurd hS (by simp)
        · obtain ⟨h1, h2⟩ := hacc
          refine ⟨?_, ?_⟩
          · rw [hl, if_pos (by rw [h1]; exact Int.ofNat_nonneg S), h1]
            simp
          · intro T hT
            obtain rfl : S = T := by simpa using hT
            exact le_trans h2 hple
    · simp at h
    · simp at h
    · simp at h

/-- C7 claim theorem: for every song, track id and sufficient fuel, the
completed validator run (observed by the ghost last-SEGNO recorder,
whose first component is exactly the Track_Validator constructor loop)
yields get_loop_length = final played time minus the played time at
which the last SEGNO was processed, and 0 when no SEGNO was processed;
the recorded SEGNO time never exceeds the final played time. -/
theorem c7_loop_length (g : Song) (tid : Int) (fuel : Nat) :
    (∀ f racc, vrunSeg fuel (initState g tid 0) none = (.ok f, racc) →
      (get_loop_length f = match racc with
        | none => 0
        | some S => f.play_time - S) ∧
      (∀ S, racc = some S → S ≤ f.play_time)) ∧
    (vrunSeg fuel (initState g tid 0) none).1 = vrun fuel (initState g tid 0) := by
  refine ⟨?_, vrunSeg_fst fuel (initState g tid 0) none⟩
  intro f racc h
  exact vrunSeg_loop_length fuel (initState g tid 0) none rfl rfl rfl f racc h

/-- Concrete validator scenario for C7: NOTE(2,1), SEGNO, NOTE(3,0), END. -/
def c7song : Song :=
  {tracks := [(0, [mkEv .NOTE 60 2 1, mkEv .SEGNO 0 0 0, mkEv .NOTE 60 3 0,
                   mkEv .END 0 0 0])],
   platform_commands := []}

/-- One unfolding of the ghost validator run from an enabled state. -/
theorem vrunSeg_succ (f : Nat) (s u : PState) (acc : Option Nat)
    (hen : s.enabled = true) (h : step_V s = .ok u) :
    vrunSeg (f + 1) s acc =
      vrunSeg f u (if u.event.type = .SEGNO then some u.play_time else acc) := by
  conv_lhs => unfold vrunSeg
  rw [if_neg (by simp [hen]), h]

/-- The ghost validator run stops at a disabled state. -/
theorem vrunSeg_stop (f : Nat) (s : PState) (acc : Option Nat)
    (h : s.enabled = false) :
    vrunSeg f s acc = (.ok s, acc) := by
  unfold vrunSeg
  rw [if_pos h]

/-- The state of the C7 scenario after the NOTE(2,1) was fetched. -/
def c7s1 : PState :=
  {initState c7song 0 0 with
    position := 1, on_time := 2, off_time := 1, event := mkEv .NOTE 60 2 1}

/-- The state of the C7 scenario after the SEGNO was processed. -/
def c7s2 : PState :=
  {initState c7song 0 0 with
    position := 2, loop_position := 2, loop_reset_position := 2,
    play_time := 3, event := mkEv .SEGNO 0 0 0, segno_time := 3}

/-- The state of the C7 scenario after the NOTE(3,0) was fetched. -/
def c7s3 : PState :=
  {initState c7song 0 0 with
    position := 3, loop_position := 2, loop_reset_position := 2,
    play_time := 3, on_time := 3, event := mkEv .NOTE 60 3 0, segno_time := 3}

/-- The final, disabled state of the C7 scenario. -/
def c7s4 : PState :=
  {initState c7song 0 0 with
    position := 4, enabled := false, loop_position := 2, loop_reset_position := 2,
    play_time := 6, event := mkEv .END 0 0 0, segno_time := 3, loop_time := 3}

theorem c7_loop_length_witness :
    get_loop_length c7s4 = 3 ∧ c7s4.play_time = 6 ∧ 3 ≤ c7s4.play_time := by
  have h1 : step_V (initState c7song 0 0) = .ok c7s1 := by decide
  have h2 : step_V c7s1 = .ok c7s2 := by decide
  have h3 : step_V c7s2 = .ok c7s3 := by decide
  have h4 : step_V c7s3 = .ok c7s4 := by decide
  have hrun : vrunSeg 16 (initState c7song 0 0) none = (.ok c7s4, some 3) := by
    rw [vrunSeg_succ 15 _ c7s1 _ rfl h1, vrunSeg_succ 14 _ c7s2 _ rfl h2,
        vrunSeg_succ 13 _ c7s3 _ rfl h3, vrunSeg_succ 12 _ c7s4 _ rfl h4,
        vrunSeg_stop 12 _ _ rfl]
    rfl
  have h := (c7_loop_length c7song 0 16).1 c7s4 (some 3) hrun
  exact ⟨by rw [h.1]; decide, rfl, h.2 3 rfl⟩

/-- C8: the "coarse volume" flag is set by handling VOL or VOL_REL,
cleared by handling VOL_FINE_REL or by a generic channel-command write
to the fine-volume slot, and untouched by every other event handled
(last writer wins); in particular handling VOL followed by VOL_FINE_REL
leaves it false. -/
theorem c8_coarse_volume_flag (s : PState) :
    (∀ u, s.event.type = .VOL → handle_event s = .ok u → coarse_volume_flag u = true) ∧
    (∀ u, s.event.type = .VOL_REL → handle_event s = .ok u → coarse_volume_flag u = true) ∧
    (∀ u, s.event.type = .VOL_FINE_REL → handle_event s = .ok u →
      coarse_volume_flag u = false) ∧
    (∀ u, s.event.type = .CHANNEL_CMD VOL_FINE_slot → handle_event s = .ok u →
      coarse_volume_flag u = false) ∧
    (∀ u, s.event.type ≠ .VOL → s.event.type ≠ .VOL_REL → s.event.type ≠ .VOL_FINE_REL →
      s.event.type ≠ .CHANNEL_CMD VOL_FINE_slot → handle_event s = .ok u →
      coarse_volume_flag u = coarse_volume_flag s) ∧
    (∀ u v, handle_event {s with event := {s.event with type := .VOL}} = .ok u →
      handle_event {u with event := {u.event with type := .VOL_FINE_REL}} = .ok v →
      coarse_volume_flag v = false) := by
  refine ⟨?_, ?_, ?_, ?_, ?_, ?_⟩
  · intro u ht hok
    unfold handle_event at hok
    rw [ht] at hok
    simp only [Res.ok.injEq] at hok
    subst hok
    simp [coarse_volume_flag, testBit_setBit_self]
  · intro u ht hok
    unfold handle_event at hok
    rw [ht] at hok
    simp only [Res.ok.injEq] at hok
    subst hok
    simp [coarse_volume_flag, testBit_setBit_self]
  · intro u ht hok
    unfold handle_event at hok
    rw [ht] at hok
    simp only [Res.ok.injEq] at hok
    subst hok
    simp [coarse_volume_flag, testBit_clrBit_self _ (by decide : VOL_BIT < 32)]
  · intro u ht hok
    unfold handle_event at hok
    rw [ht] at hok
    dsimp only [] at hok
    rw [if_pos (by decide : VOL_FINE_slot < CMD_RANGE)] at hok
    rw [if_pos rfl] at hok
    rw [if_neg (by decide : ¬ VOL_FINE_slot = TEMPO_slot)] at hok
    simp only [Res.ok.injEq] at hok
    subst hok
    simp [coarse_volume_flag, testBit_clrBit_self _ (by decide : VOL_BIT < 32)]
  · intro u h1 h2 h3 h4 hok
    unfold handle_event at hok
    cases ht : s.event.type <;> rw [ht] at hok <;> dsimp only [] at hok
    case NOP | REST | TIE | LOOP_START | LOOP_BREAK | LOOP_END | SEGNO | JUMP | END =>
      simp only [Res.ok.injEq] at hok; subst hok; rfl
    case NOTE =>
      split at hok
      · exact congrArg (fun m => m.testBit VOL_BIT) (handle_drum_mode_mask s u hok)
      · simp only [Res.ok.injEq] at hok; subst hok; rfl
    case PLATFORM =>
      split at hok
      · simp only [Res.ok.injEq] at hok; subst hok; rfl
      · simp at hok
    case TRANSPOSE_REL =>
      simp only [Res.ok.injEq] at hok; subst hok
      simp [coarse_volume_flag, testBit_setBit_of_ne _
        (by decide : TRANSPOSE_slot ≠ VOL_BIT)]
    case VOL => exact absurd ht h1
    case VOL_REL => exact absurd ht h2
    case VOL_FINE_REL => exact absurd ht h3
    case TEMPO_BPM =>
      simp only [Res.ok.injEq] at hok; subst hok
      simp [coarse_volume_flag,
        testBit_setBit_of_ne _ (by decide : BPM_BIT ≠ VOL_BIT),
        testBit_setBit_of_ne _ (by decide : TEMPO_slot ≠ VOL_BIT)]
    case CHANNEL_CMD i =>
      have hi3 : i ≠ VOL_FINE_slot := by
        intro he; exact h4 (by rw [ht, he])
      by_cases hlt : i < CMD_RANGE
      · rw [if_pos hlt, if_neg hi3] at hok
        have hiV : i ≠ VOL_BIT := by
          intro h; rw [h] at hlt; exact absurd hlt (by decide)
        by_cases hT : i = TEMPO_slot
        · rw [if_pos hT] at hok
          simp only [Res.ok.injEq] at hok; subst hok
          simp [coarse_volume_flag,
            testBit_clrBit_of_ne _ (by decide : BPM_BIT ≠ VOL_BIT)
              (by decide : VOL_BIT < 32),
            testBit_setBit_of_ne _ hiV]
        · rw [if_neg hT] at hok
          simp only [Res.ok.injEq] at hok; subst hok
          simp [coarse_volume_flag, testBit_setBit_of_ne _ hiV]
      · rw [if_neg hlt] at hok
        simp only [Res.ok.injEq] at hok; subst hok; rfl
  · intro u v _ hok
    unfold handle_event at hok
    simp only [Res.ok.injEq] at hok
    subst hok
    simp [coarse_volume_flag, testBit_clrBit_self _ (by decide : VOL_BIT < 32)]

/-- A fresh player state used to witness C8. -/
def c8base : PState := initState {tracks := [], platform_commands := []} 0 0

/-- The state after handling VOL from c8base. -/
def c8u : PState :=
  match handle_event {c8base with event := {c8base.event with type := .VOL}} with
  | .ok u => u
  | _ => c8base

/-- The state after then handling VOL_FINE_REL from c8u. -/
def c8v : PState :=
  match handle_event {c8u with event := {c8u.event with type := .VOL_FINE_REL}} with
  | .ok v => v
  | _ => c8base

/-- C8 witness: handling VOL then VOL_FINE_REL on a fresh state leaves
the coarse-volume flag false, and the intermediate VOL state had it
true. -/
theorem c8_coarse_volume_flag_witness :
    coarse_volume_flag c8v = false ∧ coarse_volume_flag c8u = true :=
  ⟨(c8_coarse_volume_flag c8base).2.2.2.2.2 c8u c8v rfl rfl,
   (c8_coarse_volume_flag {c8base with event := {c8base.event with type := .VOL}}).1 c8u rfl rfl⟩

/-- C9 counterexample: popping an empty stack does not raise the
expected-tag control-flow error the claim predicts: stack_pop reads
std::stack::top() before any emptiness check, which is undefined
behaviour on an empty stack. -/
theorem c9_pop_empty_cex :
    stack_pop ([] : List Player_Stack) .LOOP = .ub ∧
    stack_pop ([] : List Player_Stack) .LOOP ≠ .err (underflowMsg .LOOP) :=
  ⟨rfl, by decide⟩

/-- C9 (amended): for stack_top (peek), an empty stack raises the error
naming the expected tag and a wrong top frame raises the error naming
the actual top tag; for stack_pop, a wrong top frame raises the error
naming the actual top tag, but popping an empty stack is undefined
behaviour rather than a reported error (the interpreter only pops after
a successful peek); the reserved messages are the Loop-, Jump- and
Drum-mismatch messages, and the sentinel tag is reported as an
implementation bug. -/
theorem c9_stack_error_selection (st : List Player_Stack) (t : StackType) :
    (st = [] → stack_top st t = .error (underflowMsg t)) ∧
    (∀ f rest, st = f :: rest → f.type ≠ t → stack_top st t = .error (underflowMsg f.type)) ∧
    (∀ f rest, st = f :: rest → f.type = t → stack_top st t = .ok f) ∧
    (∀ f rest, st = f :: rest → f.type ≠ t → stack_pop st t = .err (underflowMsg f.type)) ∧
    (∀ f rest, st = f :: rest → f.type = t → stack_pop st t = .ok f rest) ∧
    (st = [] → stack_pop st t = .ub) ∧
    underflowMsg .LOOP = "unterminated \x27[]\x27 loop" ∧
    underflowMsg .JUMP = "unexpected \x27]\x27 loop end" ∧
    underflowMsg .DRUM_MODE = "drum routine contains no note" ∧
    underflowMsg .MAX_STACK_TYPE = "unknown stack type (BUG, please report)" := by
  refine ⟨?_, ?_, ?_, ?_, ?_, ?_, rfl, rfl, rfl, rfl⟩
  · rintro rfl; rfl
  · rintro f rest rfl hne; simp [stack_top, hne]
  · rintro f rest rfl he; simp [stack_top, he]
  · rintro f rest rfl hne; simp [stack_pop, hne]
  · rintro f rest rfl he; simp [stack_pop, he]
  · rintro rfl; rfl

/-- C9 witness: the amended statement evaluated at a Loop frame peeked
as Jump (names the actual tag) and at an empty pop (undefined). -/
theorem c9_stack_error_selection_witness :
    stack_top [⟨.LOOP, 0, 0, 0, 0⟩] .JUMP = .error (underflowMsg .LOOP) ∧
    stack_pop ([] : List Player_Stack) .JUMP = .ub :=
  ⟨(c9_stack_error_selection [⟨.LOOP, 0, 0, 0, 0⟩] .JUMP).2.1 ⟨.LOOP, 0, 0, 0, 0⟩ [] rfl
      (by decide),
   (c9_stack_error_selection [] .JUMP).2.2.2.2.2.1 rfl⟩

/-- The generic loop track of C5: LOOP_START, NOTE(1,1), LOOP_END(k), END. -/
def c5track (k : Int) : List Ev :=
  [mkEv .LOOP_START 0 0 0, mkEv .NOTE 60 1 1, mkEv .LOOP_END k 0 0, mkEv .END 0 0 0]

/-- The one-track song holding the generic C5 loop track. -/
def c5song (k : Int) : Song := {tracks := [(0, c5track k)], platform_commands := []}

/-- Loop-head state of the generic C5 track: about to fetch the NOTE,
with one Loop frame of end position e and loop count c on the stack. -/
def c5pre (k e c : Int) (t n : Nat) (ev : Ev) : PState :=
  {initState (c5song k) 0 0 with
   position := 1,
   stack := [⟨.LOOP, 0, 1, e, c⟩],
   sd_loop := 1, play_time := t, note_count := n, event := ev}

/-- Mid-iteration state of the generic C5 track: the NOTE was fetched,
its durations pending, about to fetch the LOOP_END. -/
def c5mid (k e c : Int) (t n : Nat) : PState :=
  {initState (c5song k) 0 0 with
   position := 2,
   stack := [⟨.LOOP, 0, 1, e, c⟩],
   sd_loop := 1, play_time := t, note_count := n, on_time := 1, off_time := 1,
   event := mkEv .NOTE 60 1 1}

/-- Post-loop state of the generic C5 track: the Loop frame was popped,
about to fetch the END. -/
def c5done (k : Int) (t n : Nat) : PState :=
  {initState (c5song k) 0 0 with
   position := 3, stack := [], sd_loop := 1,
   play_time := t, note_count := n, event := mkEv .LOOP_END k 0 0}

/-- Final state of the generic C5 track after the END disabled playback. -/
def c5fin (k : Int) (t n : Nat) : PState :=
  {initState (c5song k) 0 0 with
   position := 4, enabled := false, stack := [],
   sd_loop := 1, play_time := t, note_count := n, rest_count := 1,
   event := mkEv .END 0 0 0}

/-- The LOOP_START of the generic C5 track pushes the Loop frame. -/
theorem c5_start_step (k : Int) :
    step_P (initState (c5song k) 0 0) =
      .ok (c5pre k 0 0 0 0 (mkEv .LOOP_START 0 0 0)) := rfl

/-- The NOTE of the generic C5 track counts one note and leaves its
durations pending. -/
theorem c5_note_step (k e c : Int) (t n : Nat) (ev : Ev) :
    step_P (c5pre k e c t n ev) = .ok (c5mid k e c t (n + 1)) := rfl

/-- The LOOP_END of the generic C5 track jumps back to the loop head
when the decremented count stays positive (a zero stored count is first
replaced by the event parameter). -/
theorem c5_loopend_jump (k e c : Int) (t n : Nat)
    (h : 0 < (if c = 0 then k else c) - 1) :
    step_P (c5mid k e c t n) =
      .ok (c5pre k 3 ((if c = 0 then k else c) - 1) (t + 2) n
            (mkEv .LOOP_END k 0 0)) := by
  unfold step_P step_event
  dsimp only []
  rw [show fetched (snap (accum (c5mid k e c t n))) = some (mkEv .LOOP_END k 0 0)
      from rfl]
  dsimp only []
  unfold dispatch
  dsimp only [mkEv]
  unfold stack_top
  simp only [snap_stack, accum_stack]
  dsimp only [c5mid]
  rw [if_pos rfl]
  dsimp only []
  by_cases hc : c = 0
  · rw [if_pos hc] at h ⊢
    rw [if_pos h]
    simp [c5pre, c5done, snap, accum, initState, mkEv, c5song, c5track, stack_pop, hc]
  · rw [if_neg hc] at h ⊢
    rw [if_pos h]
    simp [c5pre, c5done, snap, accum, initState, mkEv, c5song, c5track, stack_pop, hc]

/-- The LOOP_END of the generic C5 track pops the Loop frame when the
decremented count is not positive. -/
theorem c5_loopend_pop (k e c : Int) (t n : Nat)
    (h : ¬ 0 < (if c = 0 then k else c) - 1) :
    step_P (c5mid k e c t n) = .ok (c5done k (t + 2) n) := by
  unfold step_P step_event
  dsimp only []
  rw [show fetched (snap (accum (c5mid k e c t n))) = some (mkEv .LOOP_END k 0 0)
      from rfl]
  dsimp only []
  unfold dispatch
  dsimp only [mkEv]
  unfold stack_top
  simp only [snap_stack, accum_stack]
  dsimp only [c5mid]
  rw [if_pos rfl]
  dsimp only []
  by_cases hc : c = 0
  · rw [if_pos hc] at h ⊢
    rw [if_neg h]
    simp [c5pre, c5done, snap, accum, initState, mkEv, c5song, c5track, stack_pop, hc]
  · rw [if_neg hc] at h ⊢
    rw [if_neg h]
    simp [c5pre, c5done, snap, accum, initState, mkEv, c5song, c5track, stack_pop, hc]

/-- The END of the generic C5 track disables playback and the end hook
counts one rest. -/
theorem c5_end_step (k : Int) (t n : Nat) :
    step_P (c5done k t n) = .ok (c5fin k t n) := rfl

/-- Running the player loop for one more step from an enabled state. -/
theorem prun_succ (f : Nat) (s u : PState) (hen : s.enabled = true)
    (h : step_P s = .ok u) : prun (f + 1) s = prun f u := by
  conv_lhs => unfold prun
  rw [if_neg (by simp [hen])]
  dsimp only []
  rw [h]
  rfl

/-- The player loop stops at a disabled state. -/
theorem prun_stop (f : Nat) (s : PState) (h : s.enabled = false) :
    prun f s = .ok s := by
  unfold prun
  rw [if_pos h]

/-- Each remaining loop iteration of the generic C5 track plays one
note and two time units, ending with the frame popped. -/
theorem c5_loop_run (r : Nat) : ∀ (e : Int) (t n fuel : Nat) (ev : Ev) (k : Int),
    prun (2 * (r + 1) + fuel) (c5pre k e ((r : Int) + 1) t n ev) =
      prun fuel (c5done k (t + 2 * (r + 1)) (n + (r + 1))) := by
  induction r with
  | zero =>
    intro e t n fuel ev k
    rw [show 2 * (0 + 1) + fuel = (fuel + 1) + 1 from by ring]
    rw [prun_succ (fuel + 1) _ _ rfl (c5_note_step k e _ t n ev)]
    rw [prun_succ fuel _ _ rfl (c5_loopend_pop k e _ t (n + 1) (by norm_num))]
  | succ r ih =>
    intro e t n fuel ev k
    have hc0 : ((if ((r : Int) + 1 + 1) = 0 then k else ((r : Int) + 1 + 1)) - 1)
        = (r : Int) + 1 := by
      rw [if_neg (by positivity)]
      ring
    push_cast
    rw [show 2 * (r + 1 + 1) + fuel = ((2 * (r + 1) + fuel) + 1) + 1 from by ring]
    rw [prun_succ _ _ _ rfl (c5_note_step k e ((r : Int) + 1 + 1) t n ev)]
    rw [prun_succ _ _ _ rfl (c5_loopend_jump k e ((r : Int) + 1 + 1) t (n + 1)
          (by rw [hc0]; positivity))]
    rw [hc0]
    rw [ih 3 (t + 2) (n + 1) fuel (mkEv .LOOP_END k 0 0) k]
    rw [show t + 2 + 2 * (r + 1) = t + 2 * (r + 1 + 1) from by ring,
        show n + 1 + (r + 1) = n + (r + 1 + 1) from by ring]

/-- The concrete C5 scenario song: NOTE(4,2), LOOP_START, NOTE(1,1),
LOOP_END(3), END. -/
def c5csong : Song :=
  {tracks := [(0, [mkEv .NOTE 60 4 2, mkEv .LOOP_START 0 0 0, mkEv .NOTE 60 1 1,
                   mkEv .LOOP_END 3 0 0, mkEv .END 0 0 0])],
   platform_commands := []}

/-- Concrete C5 state after the first NOTE. -/
def c5c1 : PState :=
  {initState c5csong 0 0 with
   position := 1, on_time := 4, off_time := 2, note_count := 1,
   event := mkEv .NOTE 60 4 2}

/-- Concrete C5 state after LOOP_START. -/
def c5c2 : PState :=
  {initState c5csong 0 0 with
   position := 2, play_time := 6, stack := [⟨.LOOP, 0, 2, 0, 0⟩], sd_loop := 1,
   note_count := 1, event := mkEv .LOOP_START 0 0 0}

/-- Concrete C5 state after the loop NOTE, first iteration. -/
def c5c3 : PState :=
  {initState c5csong 0 0 with
   position := 3, play_time := 6, stack := [⟨.LOOP, 0, 2, 0, 0⟩], sd_loop := 1,
   note_count := 2, on_time := 1, off_time := 1, event := mkEv .NOTE 60 1 1}

/-- Concrete C5 state after the first LOOP_END (jumped back, count 2). -/
def c5c4 : PState :=
  {initState c5csong 0 0 with
   position := 2, play_time := 8, stack := [⟨.LOOP, 0, 2, 4, 2⟩], sd_loop := 1,
   note_count := 2, event := mkEv .LOOP_END 3 0 0}

/-- Concrete C5 state after the loop NOTE, second iteration. -/
def c5c5 : PState :=
  {initState c5csong 0 0 with
   position := 3, play_time := 8, stack := [⟨.LOOP, 0, 2, 4, 2⟩], sd_loop := 1,
   note_count := 3, on_time := 1, off_time := 1, event := mkEv .NOTE 60 1 1}

/-- Concrete C5 state after the second LOOP_END (jumped back, count 1). -/
def c5c6 : PState :=
  {initState c5csong 0 0 with
   position := 2, play_time := 10, stack := [⟨.LOOP, 0, 2, 4, 1⟩], sd_loop := 1,
   note_count := 3, event := mkEv .LOOP_END 3 0 0}

/-- Concrete C5 state after the loop NOTE, third iteration. -/
def c5c7 : PState :=
  {initState c5csong 0 0 with
   position := 3, play_time := 10, stack := [⟨.LOOP, 0, 2, 4, 1⟩], sd_loop := 1,
   note_count := 4, on_time := 1, off_time := 1, event := mkEv .NOTE 60 1 1}

/-- Concrete C5 state after the third LOOP_END (frame popped). -/
def c5c8 : PState :=
  {initState c5csong 0 0 with
   position := 4, play_time := 12, stack := [], sd_loop := 1,
   note_count := 4, event := mkEv .LOOP_END 3 0 0}

/-- Concrete C5 final state after END. -/
def c5c9 : PState :=
  {initState c5csong 0 0 with
   position := 5, play_time := 12, stack := [], sd_loop := 1, enabled := false,
   note_count := 4, rest_count := 1, event := mkEv .END 0 0 0}

/-- C5: playing NOTE(4,2), LOOP_START, NOTE(1,1), LOOP_END(3), END to
completion yields total played time 12 and note count 4; for every
count k with 1 <= k, the loop track LOOP_START, NOTE(1,1), LOOP_END(k),
END plays the NOTE exactly k times with played time 2k; and a
LOOP_BREAK whose enclosing Loop frame has loop count 1 (the final
iteration) jumps directly to the frame recorded end position past the
remaining body, popping the frame. -/
theorem c5_loop_semantics :
    (prun 9 (initState c5csong 0 0) = .ok c5c9 ∧
      c5c9.play_time = 12 ∧ c5c9.note_count = 4) ∧
    (∀ k : Nat, 1 ≤ k →
      prun (2 * k + 2) (initState (c5song (k : Int)) 0 0) =
        .ok (c5fin (k : Int) (2 * k) k) ∧
      (c5fin (k : Int) (2 * k) k).note_count = k ∧
      (c5fin (k : Int) (2 * k) k).play_time = 2 * k) ∧
    (∀ (H : Hooks) (s : PState) (idx : Int) (f : Player_Stack)
        (rest : List Player_Stack),
      s.event.type = .LOOP_BREAK → s.stack = f :: rest → f.type = .LOOP →
      f.loop_count = 1 →
      dispatch H s idx =
        .ok {s with
             song := patchParam s.song s.track idx f.end_position,
             position := f.end_position, stack := rest}) := by
  refine ⟨⟨?_, rfl, rfl⟩, ?_, ?_⟩
  · calc prun 9 (initState c5csong 0 0)
        = prun 8 c5c1 := prun_succ 8 _ _ rfl (by decide)
      _ = prun 7 c5c2 := prun_succ 7 _ _ rfl (by decide)
      _ = prun 6 c5c3 := prun_succ 6 _ _ rfl (by decide)
      _ = prun 5 c5c4 := prun_succ 5 _ _ rfl (by decide)
      _ = prun 4 c5c5 := prun_succ 4 _ _ rfl (by decide)
      _ = prun 3 c5c6 := prun_succ 3 _ _ rfl (by decide)
      _ = prun 2 c5c7 := prun_succ 2 _ _ rfl (by decide)
      _ = prun 1 c5c8 := prun_succ 1 _ _ rfl (by decide)
      _ = prun 0 c5c9 := prun_succ 0 _ _ rfl (by decide)
      _ = .ok c5c9 := prun_stop 0 _ rfl
  · intro k hk
    refine ⟨?_, rfl, rfl⟩
    obtain ⟨r, rfl⟩ : ∃ r, k = r + 1 := ⟨k - 1, by omega⟩
    rcases r with _ | r'
    · calc prun (2 * 1 + 2) (initState (c5song ((1 : Nat) : Int)) 0 0)
          = prun 3 (c5pre ((1 : Nat) : Int) 0 0 0 0 (mkEv .LOOP_START 0 0 0)) :=
            prun_succ 3 _ _ rfl (c5_start_step _)
        _ = prun 2 (c5mid ((1 : Nat) : Int) 0 0 0 1) :=
            prun_succ 2 _ _ rfl (c5_note_step _ 0 0 0 0 (mkEv .LOOP_START 0 0 0))
        _ = prun 1 (c5done ((1 : Nat) : Int) 2 1) :=
            prun_succ 1 _ _ rfl (c5_loopend_pop _ 0 0 0 1 (by norm_num))
        _ = prun 0 (c5fin ((1 : Nat) : Int) 2 1) :=
            prun_succ 0 _ _ rfl (c5_end_step _ 2 1)
        _ = .ok (c5fin ((1 : Nat) : Int) (2 * 1) 1) := prun_stop 0 _ rfl
    · rw [show 2 * (r' + 1 + 1) + 2 = ((2 * (r' + 1) + 1) + 1) + 1 + 1 from by ring]
      rw [prun_succ _ _ _ rfl (c5_start_step _)]
      rw [prun_succ _ _ _ rfl (c5_note_step _ 0 0 0 0 (mkEv .LOOP_START 0 0 0))]
      rw [prun_succ _ _ _ rfl (c5_loopend_jump _ 0 0 0 1
            (by rw [if_pos rfl]; push_cast; omega))]
      rw [show ((if (0 : Int) = 0 then ((r' + 1 + 1 : Nat) : Int) else 0) - 1)
            = ((r' : Int) + 1) from by rw [if_pos rfl]; push_cast; ring]
      rw [c5_loop_run r']
      rw [prun_succ _ _ _ rfl (c5_end_step _ _ _)]
      rw [prun_stop 0 _ rfl]
      rw [show 0 + 2 + 2 * (r' + 1) = 2 * (r' + 1 + 1) from by ring,
          show 0 + 1 + (r' + 1) = r' + 1 + 1 from by ring]
  · intro H s idx f rest he hst hft hlc
    unfold dispatch
    rw [he]
    dsimp only []
    rw [hst]
    unfold stack_top stack_pop
    dsimp only []
    rw [if_pos hft]
    dsimp only []
    rw [if_pos hlc]
    rw [if_pos hft]

/-- C5 counterexample: with LOOP_END count 0 the loop body still plays
once, so the body does not play exactly k times for k = 0: the full
playthrough of LOOP_START, NOTE(1,1), LOOP_END(0), END ends with note
count 1. -/
theorem c5_loop_count_zero_cex :
    prun 4 (initState (c5song 0) 0 0) = .ok (c5fin 0 2 1) ∧
    (c5fin 0 2 1).note_count = 1 := by
  constructor
  · calc prun 4 (initState (c5song 0) 0 0)
        = prun 3 (c5pre 0 0 0 0 0 (mkEv .LOOP_START 0 0 0)) :=
          prun_succ 3 _ _ rfl (c5_start_step 0)
      _ = prun 2 (c5mid 0 0 0 0 1) :=
          prun_succ 2 _ _ rfl (c5_note_step 0 0 0 0 0 (mkEv .LOOP_START 0 0 0))
      _ = prun 1 (c5done 0 2 1) :=
          prun_succ 1 _ _ rfl (c5_loopend_pop 0 0 0 0 1 (by norm_num))
      _ = prun 0 (c5fin 0 2 1) :=
          prun_succ 0 _ _ rfl (c5_end_step 0 2 1)
      _ = .ok (c5fin 0 2 1) := prun_stop 0 _ rfl
  · rfl

/-- A concrete state about to dispatch a final-iteration LOOP_BREAK. -/
def c5brk : PState :=
  {initState (c5song 1) 0 0 with
   event := mkEv .LOOP_BREAK 0 0 0, stack := [⟨.LOOP, 0, 1, 3, 1⟩], sd_loop := 1}

theorem c5_loop_semantics_witness :
    prun (2 * 2 + 2) (initState (c5song ((2 : Nat) : Int)) 0 0) =
      .ok (c5fin ((2 : Nat) : Int) (2 * 2) 2) ∧
    dispatch P_hooks c5brk 1 =
      .ok {c5brk with
           song := patchParam c5brk.song c5brk.track 1 3,
           position := 3, stack := []} := by
  refine ⟨(c5_loop_semantics.2.1 2 (by norm_num)).1, ?_⟩
  exact c5_loop_semantics.2.2 P_hooks c5brk 1 ⟨.LOOP, 0, 1, 3, 1⟩ [] rfl rfl rfl rfl

/-- Rebase the fields a fast-forward run is allowed to differ in:
played time, the flag word, and the note/rest counters. -/
def reb (s : PState) (p fl nc rc : Nat) : PState :=
  {s with play_time := p, flag := fl, note_count := nc, rest_count := rc}

/-- The skip-invariant core of a state: played time, the PLAYER_SKIP
bit, the counters and the last-event snapshot erased. -/
def ecore (s : PState) : PState :=
  {s with play_time := 0, flag := 2 * (s.flag / 2), note_count := 0,
          rest_count := 0, event := Ev.init}

/-- A state between ticks: an enabled state must have a pending
duration (play_tick leaves no enabled state without one). -/
def settled (s : PState) : Prop :=
  s.enabled = true → ¬(s.on_time = 0 ∧ s.off_time = 0)

/-- Player::handle_drum_mode ignores played time, the flag word and the
counters, and passes them through unchanged. -/
theorem handle_drum_mode_reb (s : PState) (p fl nc rc : Nat) :
    handle_drum_mode (reb s p fl nc rc) =
      match handle_drum_mode s with
      | .ok t => .ok (reb t p fl nc rc)
      | .err m t => .err m (reb t p fl nc rc)
      | .out => .out
      | .ub => .ub := by
  unfold handle_drum_mode reb
  dsimp only []
  by_cases hst : get_stack_type s.stack ≠ .DRUM_MODE
  · rw [if_pos (by simpa using hst), if_pos (by simpa using hst)]
    rcases hg : s.song.get_track (chGet s DRUM_MODE_slot + s.event.param) with _ | rt
    · simp only [chGet] at hg ⊢
      rw [hg]
    · simp only [chGet] at hg ⊢
      rw [hg]
      unfold stack_push
      dsimp only []
      by_cases hd : s.max_stack_depth ≤ s.stack.length
      · rw [if_pos hd, if_pos hd]
        rfl
      · rw [if_neg hd, if_neg hd]
        rfl
  · rw [if_neg (by simpa using hst), if_neg (by simpa using hst)]
    rcases hpop : stack_pop s.stack .DRUM_MODE with ⟨f, rest⟩ | m | _ <;> rfl

/-- Player::handle_event ignores played time, the flag word and the
counters, and passes them through unchanged. -/
theorem handle_event_reb (s : PState) (p fl nc rc : Nat) :
    handle_event (reb s p fl nc rc) =
      match handle_event s with
      | .ok t => .ok (reb t p fl nc rc)
      | .err m t => .err m (reb t p fl nc rc)
      | .out => .out
      | .ub => .ub := by
  unfold handle_event
  dsimp only [reb]
  cases hE : s.event.type
  all_goals dsimp only []
  all_goals try rfl
  · -- NOTE
    by_cases hd : chGet s DRUM_MODE_slot ≠ 0
    · rw [if_pos (by simpa [chGet] using hd), if_pos hd]
      exact handle_drum_mode_reb s p fl nc rc
    · rw [if_neg (by simpa [chGet] using hd), if_neg hd]
  · -- PLATFORM
    by_cases hp : s.song.platform_commands.contains s.event.param
    · rw [if_pos hp, if_pos hp]
    · rw [if_neg hp, if_neg hp]
  · -- CHANNEL_CMD
    rename_i i
    by_cases hlt : i < CMD_RANGE
    · rw [if_pos hlt, if_pos hlt]
      by_cases hV : i = VOL_FINE_slot
      · rw [if_pos hV, if_pos hV]
        by_cases hT : i = TEMPO_slot
        · rw [if_pos hT, if_pos hT]
          rfl
        · rw [if_neg hT, if_neg hT]
          rfl
      · rw [if_neg hV, if_neg hV]
        by_cases hT : i = TEMPO_slot
        · rw [if_pos hT, if_pos hT]
          rfl
        · rw [if_neg hT, if_neg hT]
          rfl
    · rw [if_neg hlt, if_neg hlt]

/-- Results of a computation that preserves played time. -/
def playPreserved (r : Res) (p : Nat) : Prop :=
  ∀ t, r = .ok t → t.play_time = p

@[simp] theorem playPreserved_ok (s : PState) (p : Nat) :
    playPreserved (.ok s) p ↔ s.play_time = p := by
  constructor
  · intro h
    exact h s rfl
  · intro h t ht
    cases ht
    exact h

@[simp] theorem playPreserved_err (m : String) (s : PState) (p : Nat) :
    playPreserved (.err m s) p := by
  intro t ht
  cases ht

@[simp] theorem playPreserved_out (p : Nat) : playPreserved .out p := by
  intro t ht
  cases ht

@[simp] theorem playPreserved_ub (p : Nat) : playPreserved .ub p := by
  intro t ht
  cases ht

theorem handle_drum_mode_play (s : PState) :
    playPreserved (handle_drum_mode s) s.play_time := by
  unfold handle_drum_mode
  dsimp only []
  split
  · split
    · simp
    · unfold stack_push
      split <;> simp [Res.bind]
  · split <;> simp

theorem handle_event_play (s : PState) :
    playPreserved (handle_event s) s.play_time := by
  unfold handle_event
  split
  · split
    · exact handle_drum_mode_play s
    · simp
  · split <;> simp
  · simp
  · simp
  · simp
  · simp
  · simp
  · split <;> simp
  · simp

/-- write_event touches only the counters the rebase overwrites. -/
theorem reb_write_event (z : PState) (p fl nc rc : Nat) :
    reb (write_event z) p fl nc rc = reb z p fl nc rc := by
  unfold write_event reb
  split_ifs <;> rfl

/-- write_event touches only fields the skip-invariant core erases. -/
theorem ecore_write_event (z : PState) : ecore (write_event z) = ecore z := by
  unfold write_event ecore
  split_ifs <;> rfl


theorem handle_drum_mode_flag (s : PState) :
    ∀ t, handle_drum_mode s = .ok t → t.flag = s.flag := by
  intro t h
  unfold handle_drum_mode at h
  dsimp only [] at h
  split at h
  · split at h
    · exact Res.noConfusion h
    · unfold stack_push at h
      split at h
      · simp [Res.bind] at h
      · simp only [Res.bind_ok, Res.ok.injEq] at h
        subst h
        rfl
  · split at h
    · simp only [Res.ok.injEq] at h
      subst h
      rfl
    · exact Res.noConfusion h
    · exact Res.noConfusion h

theorem handle_event_flag (s : PState) :
    ∀ t, handle_event s = .ok t → t.flag = s.flag := by
  intro t h
  unfold handle_event at h
  split at h
  · split at h
    · exact handle_drum_mode_flag s t h
    · simp only [Res.ok.injEq] at h
      subst h
      rfl
  · split at h
    · simp only [Res.ok.injEq] at h
      subst h
      rfl
    · exact Res.noConfusion h
  all_goals first
    | (simp only [Res.ok.injEq] at h
       subst h
       rfl)
    | (split at h
       all_goals simp only [Res.ok.injEq] at h
       all_goals subst h
       all_goals rfl)

/-- Player::event_hook congruence: rebasing played time, the flag word
and the counters changes the result only in those fields (the flag
gates the emission, whose effects the core erases). -/
theorem P_event_hook_cong (X : PState) (p fl nc rc : Nat) :
    ∀ u, P_event_hook X = .ok u →
      ∃ u', P_event_hook (reb X p fl nc rc) = .ok u' ∧
        ecore u' = ecore (reb u p fl nc rc) ∧
        u'.play_time = p ∧ u.play_time = X.play_time ∧
        u'.flag = fl ∧ u.flag = X.flag := by
  intro u h
  unfold P_event_hook at h ⊢
  rw [handle_event_reb]
  have hp := handle_event_play X
  rcases hhe : handle_event X with t | ⟨m, t⟩ | _ | _ <;> rw [hhe] at h hp
  · simp only [playPreserved_ok] at hp
    simp only [Res.bind_ok] at h
    dsimp only []
    simp only [Res.bind_ok]
    by_cases hgX : t.flag % 2 = 0
    · rw [if_pos hgX] at h
      simp only [Res.ok.injEq] at h
      subst h
      by_cases hg : fl % 2 = 0
      · rw [if_pos (show (reb t p fl nc rc).flag % 2 = 0 from hg)]
        exact ⟨_, rfl, by rw [ecore_write_event, reb_write_event], by simp [reb],
               by simp [hp], by simp [reb], by simp [handle_event_flag X t hhe]⟩
      · rw [if_neg (show ¬(reb t p fl nc rc).flag % 2 = 0 from hg)]
        exact ⟨_, rfl, by rw [reb_write_event], rfl, by simp [hp], rfl,
               by simp [handle_event_flag X t hhe]⟩
    · rw [if_neg hgX] at h
      simp only [Res.ok.injEq] at h
      subst h
      by_cases hg : fl % 2 = 0
      · rw [if_pos (show (reb t p fl nc rc).flag % 2 = 0 from hg)]
        exact ⟨_, rfl, by rw [ecore_write_event], by simp [reb], hp,
               by simp [reb], handle_event_flag X t hhe⟩
      · rw [if_neg (show ¬(reb t p fl nc rc).flag % 2 = 0 from hg)]
        exact ⟨_, rfl, rfl, rfl, hp, rfl, handle_event_flag X t hhe⟩
  · simp [Res.bind] at h
  · simp [Res.bind] at h
  · simp [Res.bind] at h

/-- Dispatch congruence for the Player hooks: rebasing played time, the
flag word and the counters never changes which branch runs, and changes
the result only in the fields the skip-invariant core erases (plus the
rebased played time, which every branch preserves). -/
theorem dispatch_P_cong (X : PState) (idx : Int) (p fl nc rc : Nat) :
    ∀ u, dispatch P_hooks X idx = .ok u →
      ∃ u', dispatch P_hooks (reb X p fl nc rc) idx = .ok u' ∧
        ecore u' = ecore (reb u p fl nc rc) ∧
        u'.play_time = p ∧ u.play_time = X.play_time ∧
        u'.flag = fl ∧ u.flag = X.flag := by
  intro u h
  unfold dispatch at h ⊢
  dsimp only [reb]
  split at h
  · -- LOOP_START
    unfold stack_push at h ⊢
    dsimp only [] at h ⊢
    split at h
    · simp at h
    · rename_i hd
      simp only [Res.ok.injEq] at h
      subst h
      try rw [if_neg hd]
      exact ⟨_, rfl, rfl, rfl, rfl, rfl, rfl⟩
  · -- LOOP_BREAK
    split at h
    · simp at h
    · rename_i f htop
      dsimp only [] at h ⊢
      split at h
      · rename_i hc1
        try rw [if_pos hc1]
        split at h
        · rename_i g rest hpop
          simp only [Res.ok.injEq] at h
          subst h
          exact ⟨_, rfl, rfl, rfl, rfl, rfl, rfl⟩
        · simp at h
        · simp at h
      · rename_i hc1
        try rw [if_neg hc1]
        simp only [Res.ok.injEq] at h
        subst h
        exact ⟨_, rfl, rfl, rfl, rfl, rfl, rfl⟩
  · -- LOOP_END
    split at h
    · simp at h
    · rename_i f htop
      dsimp only [] at h ⊢
      split at h
      · rename_i hc0
        try rw [if_pos hc0]
        dsimp only []
        split at h
        · rename_i hpos
          try rw [if_pos hpos]
          simp only [Res.ok.injEq] at h
          subst h
          exact ⟨_, rfl, rfl, rfl, rfl, rfl, rfl⟩
        · rename_i hpos
          try rw [if_neg hpos]
          split at h
          · rename_i g rest hpop
            try rw [hpop]
            try dsimp only []
            simp only [Res.ok.injEq] at h
            subst h
            exact ⟨_, rfl, rfl, rfl, rfl, rfl, rfl⟩
          · simp at h
          · simp at h
      · rename_i hc0
        try rw [if_neg hc0]
        dsimp only []
        split at h
        · rename_i hpos
          try rw [if_pos hpos]
          simp only [Res.ok.injEq] at h
          subst h
          exact ⟨_, rfl, rfl, rfl, rfl, rfl, rfl⟩
        · rename_i hpos
          try rw [if_neg hpos]
          split at h
          · rename_i g rest hpop
            try rw [hpop]
            try dsimp only []
            simp only [Res.ok.injEq] at h
            subst h
            exact ⟨_, rfl, rfl, rfl, rfl, rfl, rfl⟩
          · simp at h
          · simp at h
  · -- SEGNO
    dsimp only [P_hooks] at h ⊢
    exact P_event_hook_cong
      {X with
       loop_position := X.position, loop_reset_position := X.position}
      p fl nc rc u h
  · -- JUMP
    split at h
    · simp at h
    · rename_i tr hg
      unfold stack_push at h ⊢
      try dsimp only [] at h ⊢
      split at h
      · simp [Res.bind] at h
      · rename_i hd
        try rw [if_neg hd]
        simp only [Res.bind_ok, Res.ok.injEq] at h
        subst h
        exact ⟨_, rfl, rfl, rfl, rfl, rfl, rfl⟩
  · -- END
    split at h
    · -- non-empty stack
      dsimp only [] at h ⊢
      split at h
      · simp at h
      · rename_i f htop
        try dsimp only [] at h ⊢
        split at h
        · rename_i g rest hpop
          simp only [Res.ok.injEq] at h
          subst h
          exact ⟨_, rfl, rfl, rfl, rfl, rfl, rfl⟩
        · simp at h
        · simp at h
    · -- empty stack
      dsimp only [] at h ⊢
      split at h
      · rename_i hlp
        try rw [if_pos hlp]
        simp only [Res.ok.injEq] at h
        subst h
        refine ⟨_, rfl, ?_, ?_, ?_, ?_, ?_⟩
        all_goals first
          | rfl
          | simp [P_hooks, P_end_hook, write_event, ecore, reb]
      · rename_i hlp
        try rw [if_neg hlp]
        try rw [show (P_hooks.loop_hook X).2 = true from rfl] at h
        try simp only [if_true] at h
        dsimp only [P_hooks] at h ⊢
        try simp only [if_true]
        simp only [Res.ok.injEq] at h
        subst h
        exact ⟨_, rfl, rfl, rfl, rfl, rfl, rfl⟩
  · -- generic events
    exact P_event_hook_cong X p fl nc rc u h


theorem snap_event (s : PState) : (snap s).event = s.event := by
  unfold snap
  split <;> rfl

theorem snap_sd_loop (s : PState) : (snap s).sd_loop = s.sd_loop := by
  unfold snap
  split <;> rfl

theorem snap_sd_jump (s : PState) : (snap s).sd_jump = s.sd_jump := by
  unfold snap
  split <;> rfl

theorem snap_sd_drum (s : PState) : (snap s).sd_drum = s.sd_drum := by
  unfold snap
  split <;> rfl

theorem snap_sd_max (s : PState) : (snap s).sd_max = s.sd_max := by
  unfold snap
  split <;> rfl

theorem snap_loop_reset_count (s : PState) :
    (snap s).loop_reset_count =
      if s.position = s.loop_reset_position then s.loop_count
      else s.loop_reset_count := by
  unfold snap
  split <;> rename_i hh <;> simp [hh]

theorem accum_event (s : PState) : (accum s).event = s.event := rfl

theorem accum_sd_loop (s : PState) : (accum s).sd_loop = s.sd_loop := rfl

theorem accum_sd_jump (s : PState) : (accum s).sd_jump = s.sd_jump := rfl

theorem accum_sd_drum (s : PState) : (accum s).sd_drum = s.sd_drum := rfl

theorem accum_sd_max (s : PState) : (accum s).sd_max = s.sd_max := rfl

theorem accum_loop_reset_count (s : PState) :
    (accum s).loop_reset_count = s.loop_reset_count := rfl

/-- Step congruence for the Player: rebasing played time, the flag word
and the counters never changes control flow; the results agree up to
the skip-invariant core, and played time advances by the pending
durations on both sides. -/
theorem step_P_cong (s : PState) (p fl nc rc : Nat) :
    ∀ t, step_P s = .ok t →
      ∃ t', step_P (reb s p fl nc rc) = .ok t' ∧
        ecore t' = ecore (reb t p fl nc rc) ∧
        t'.play_time = p + s.on_time + s.off_time ∧
        t.play_time = s.play_time + s.on_time + s.off_time ∧
        t'.flag = fl ∧ t.flag = s.flag := by
  intro t h
  unfold step_P step_event at h ⊢
  dsimp only [] at h ⊢
  rw [fetched_snap, fetched_accum] at h ⊢
  rw [show fetched (reb s p fl nc rc) = fetched s from rfl]
  rcases hf : fetched s with _ | e <;> rw [hf] at h <;> dsimp only [] at h ⊢ <;>
    simp only [snap_song, snap_track, snap_position, snap_enabled, snap_loop_position,
    snap_loop_reset_position, snap_stack, snap_max_stack_depth, snap_track_state,
    snap_track_update_mask, snap_platform_state, snap_platform_update_mask, snap_flag,
    snap_note_count, snap_rest_count, snap_play_time, snap_on_time, snap_off_time,
    snap_loop_count, snap_segno_time, snap_loop_time, snap_event, snap_sd_loop,
    snap_sd_jump, snap_sd_drum, snap_sd_max, snap_loop_reset_count,
    accum_song, accum_track, accum_position, accum_enabled, accum_loop_position,
    accum_loop_reset_position, accum_stack, accum_max_stack_depth, accum_track_state,
    accum_track_update_mask, accum_platform_state, accum_platform_update_mask, accum_flag,
    accum_note_count, accum_rest_count, accum_play_time, accum_on_time, accum_off_time,
    accum_loop_count, accum_segno_time, accum_loop_time, accum_event, accum_sd_loop,
    accum_sd_jump, accum_sd_drum, accum_sd_max, accum_loop_reset_count] at h ⊢
    <;> try dsimp only [reb] at h ⊢
  · obtain ⟨t', ht', hc, hp', hp, hf', hf⟩ :=
      dispatch_P_cong _ _ (p + s.on_time + s.off_time) fl nc rc t h
    exact ⟨t', ht', hc, hp', hp, hf', hf⟩
  · obtain ⟨t', ht', hc, hp', hp, hf', hf⟩ :=
      dispatch_P_cong _ _ (p + s.on_time + s.off_time) fl nc rc t h
    exact ⟨t', ht', hc, hp', hp, hf', hf⟩

/-- One Player step advances played time by exactly the pending
durations it folds in. -/
theorem step_P_play (s t : PState) (h : step_P s = .ok t) :
    t.play_time = s.play_time + s.on_time + s.off_time := by
  obtain ⟨-, -, -, -, hp, -⟩ :=
    step_P_cong s s.play_time s.flag s.note_count s.rest_count t h
  exact hp

/-- The skip loop adds exactly its tick budget to played time. -/
theorem skip_loop_play (F : Nat) : ∀ (n : Nat) (s t : PState),
    skip_loop F n s = .ok t → t.play_time = s.play_time + n := by
  induction F with
  | zero =>
    intro n s t h
    unfold skip_loop at h
    split at h
    · simp only [Res.ok.injEq] at h
      subst h
      rfl
    · split at h
      · simp only [Res.ok.injEq] at h
        subst h
        rfl
      · dsimp only [] at h
        split at h
        · rename_i hoff
          simp only [Res.ok.injEq] at h
          subst h
          rename_i hnz hon
          simp only [not_or] at hnz
          simp at hon
          dsimp only []
          omega
        · simp at h
  | succ f ih =>
    intro n s t h
    unfold skip_loop at h
    split at h
    · simp only [Res.ok.injEq] at h
      subst h
      rfl
    · split at h
      · simp only [Res.ok.injEq] at h
        subst h
        rfl
      · dsimp only [] at h
        split at h
        · rename_i hoff
          simp only [Res.ok.injEq] at h
          subst h
          rename_i hnz hon
          simp only [not_or] at hnz
          simp at hon
          dsimp only []
          omega
        · rename_i hnz hon hoff
          simp only [not_or] at hnz
          simp at hon hoff
          rcases hst : step_P _ with v | ⟨m, v⟩ | _ | _ <;> rw [hst] at h <;>
            simp only [Res.bind_ok, Res.bind_err, Res.bind_out, Res.bind_ub] at h
          all_goals try exact Res.noConfusion h
          have hv := step_P_play _ _ hst
          have ht := ih _ _ _ h
          dsimp only [] at hv
          rw [ht, hv]
          simp
          omega

/-- The trailing drain loop of play_tick never advances played time (it
only steps states with no pending durations). -/
theorem drain_play (F : Nat) : ∀ s t, drain F s = .ok t → t.play_time = s.play_time := by
  induction F with
  | zero =>
    intro s t h
    unfold drain at h
    split at h
    · simp at h
    · simp only [Res.ok.injEq] at h
      subst h
      rfl
  | succ f ih =>
    intro s t h
    unfold drain at h
    split at h
    · rename_i hcond
      rcases hst : step_P s with v | ⟨m, v⟩ | _ | _ <;> rw [hst] at h <;>
        simp only [Res.bind_ok, Res.bind_err, Res.bind_out, Res.bind_ub] at h
      all_goals try exact Res.noConfusion h
      have hv := step_P_play _ _ hst
      rw [ih _ _ h, hv, hcond.2.1, hcond.2.2]
      simp
    · simp only [Res.ok.injEq] at h
      subst h
      rfl

/-- The drain loop is the identity on settled or disabled states. -/
theorem drain_stop (F : Nat) (s : PState)
    (h : ¬(s.enabled = true ∧ s.on_time = 0 ∧ s.off_time = 0)) :
    drain F s = .ok s := by
  unfold drain
  rw [if_neg h]

/-- One play_tick adds exactly one tick to played time. -/
theorem play_tick_play (F : Nat) (s t : PState) (h : play_tick F s = .ok t) :
    t.play_time = s.play_time + 1 := by
  unfold play_tick at h
  try dsimp only [] at h
  rcases hd : drain F _ with v | ⟨m, v⟩ | _ | _ <;> rw [hd] at h <;>
    simp only [Res.bind_ok, Res.bind_err, Res.bind_out, Res.bind_ub] at h
  all_goals try exact Res.noConfusion h
  simp only [Res.ok.injEq] at h
  subst h
  have hv := drain_play F _ _ hd
  try dsimp only [] at hv
  dsimp only []
  rw [hv]
  split_ifs <;> simp

/-- n play_ticks add exactly n ticks to played time. -/
theorem playN_play (F : Nat) : ∀ n s t, playN F n s = .ok t →
    t.play_time = s.play_time + n := by
  intro n
  induction n with
  | zero =>
    intro s t h
    unfold playN at h
    simp only [Res.ok.injEq] at h
    subst h
    rfl
  | succ m ih =>
    intro s t h
    unfold playN at h
    rcases hp : play_tick F s with v | ⟨mm, v⟩ | _ | _ <;> rw [hp] at h <;>
      simp only [Res.bind_ok, Res.bind_err, Res.bind_out, Res.bind_ub] at h
    all_goals try exact Res.noConfusion h
    have h1 := play_tick_play F s v hp
    have h2 := ih v t h
    omega

/-- skip_ticks adds exactly its tick budget to played time. -/
theorem skip_ticks_play (F n : Nat) (s t : PState) (h : skip_ticks F n s = .ok t) :
    t.play_time = s.play_time + n := by
  unfold skip_ticks at h
  split at h
  · simp only [Res.ok.injEq] at h
    subst h
    rfl
  · rcases hsl : skip_loop F n _ with w | ⟨m, w⟩ | _ | _ <;> rw [hsl] at h <;>
      simp only [Res.bind_ok, Res.bind_err, Res.bind_out, Res.bind_ub] at h
    all_goals try exact Res.noConfusion h
    simp only [Res.ok.injEq] at h
    subst h
    have hw := skip_loop_play F n _ _ hsl
    simpa using hw

theorem flag_roundtrip (x : Nat) : 2 * ((2 * (x / 2) + 1) / 2) = 2 * (x / 2) := by
  omega

theorem flag_idem (x : Nat) : 2 * ((2 * (x / 2)) / 2) = 2 * (x / 2) := by
  omega

theorem ecore_play_set (z : PState) (q : Nat) :
    ecore {z with play_time := q} = ecore z := rfl

theorem ecore_reb (z : PState) (p fl nc rc : Nat) :
    ecore (reb z p fl nc rc) = ecore {z with flag := fl} := rfl

theorem erase_eq_of_ecore (a b : PState) (h : ecore a = ecore b)
    (hp : a.play_time = b.play_time) : erase a = erase b := by
  cases a
  cases b
  simp only [ecore, erase, PState.mk.injEq] at h hp ⊢
  simp_all

/-- One fast-forward tick against one play_tick: from a settled state,
when the fast-forwarded state is settled again, the two agree up to the
emission artifacts (PLAYER_SKIP bit, last-event snapshot, counters). -/
theorem skip_one_equiv (F1 F2 : Nat) (s t u : PState)
    (hs : settled s) (hz : s.enabled = false → s.on_time = 0 ∧ s.off_time = 0)
    (hskip : skip_ticks F1 1 s = .ok t) (ht : settled t)
    (hplay : play_tick F2 s = .ok u) : erase u = erase t := by
  by_cases hen : s.enabled = true
  case neg =>
    have hen0 : s.enabled = false := by simpa using hen
    obtain ⟨hon0, hoff0⟩ := hz hen0
    unfold skip_ticks at hskip
    rw [if_pos hen0] at hskip
    simp only [Res.ok.injEq] at hskip
    subst hskip
    unfold play_tick at hplay
    dsimp only [] at hplay
    rw [if_neg (by simp [hon0])] at hplay
    rw [if_neg (by simp [hoff0])] at hplay
    rw [drain_stop F2 s (by simp [hen0])] at hplay
    simp only [Res.bind_ok, Res.ok.injEq] at hplay
    subst hplay
    rfl
  case pos =>
    unfold skip_ticks at hskip
    rw [if_neg (by simp [hen])] at hskip
    by_cases hA : 1 < s.on_time
    · -- on_time at least 2: skip breaks the loop, play_tick decrements
      have hSL : skip_loop F1 1 {s with flag := 2 * (s.flag / 2) + 1} =
          .ok {s with
               flag := 2 * (s.flag / 2) + 1, on_time := s.on_time - 1,
               play_time := s.play_time + 1} := by
        unfold skip_loop
        rw [if_neg (by simp [hen])]
        try dsimp only []
        rw [if_pos hA]
      rw [hSL] at hskip
      simp only [Res.bind_ok, Res.ok.injEq] at hskip
      subst hskip
      have hPT : play_tick F2 s =
          .ok {s with
               on_time := s.on_time - 1, play_time := s.play_time + 1} := by
        unfold play_tick
        try dsimp only []
        rw [if_pos (by omega)]
        rw [if_neg (fun hcon =>
          absurd (show s.on_time - 1 = 0 from hcon.1) (by omega))]
        rw [drain_stop F2 _ (fun hcon =>
          absurd (show s.on_time - 1 = 0 from hcon.2.1) (by omega))]
        rfl
      rw [hPT] at hplay
      simp only [Res.ok.injEq] at hplay
      subst hplay
      simp [erase, flag_roundtrip, flag_idem]
    · by_cases hon1 : s.on_time = 1
      · by_cases hoffz : s.off_time = 0
        · -- on = 1, off = 0: both runs step exactly one event
          rcases F1 with _ | f1
          · have hSL : skip_loop 0 1 {s with flag := 2 * (s.flag / 2) + 1} =
                .out := by
              unfold skip_loop
              rw [if_neg (by simp [hen])]
              try dsimp only []
              rw [if_neg (by rw [hon1]; norm_num)]
              rw [if_neg (by rw [hon1, hoffz]; norm_num)]
            rw [hSL] at hskip
            simp at hskip
          · have hSL : skip_loop (f1 + 1) 1 {s with flag := 2 * (s.flag / 2) + 1} =
                (step_P {s with
                  flag := 2 * (s.flag / 2) + 1,
                  play_time := s.play_time + 1, on_time := 0,
                  off_time := 0}).bind (skip_loop f1 0) := by
              unfold skip_loop
              rw [if_neg (by simp [hen])]
              try dsimp only []
              rw [if_neg (by rw [hon1]; norm_num)]
              rw [if_neg (by rw [hon1, hoffz]; norm_num)]
              try dsimp only []
              rw [hon1, hoffz]
            rw [hSL] at hskip
            rcases hstep : step_P {s with
                flag := 2 * (s.flag / 2) + 1,
                play_time := s.play_time + 1, on_time := 0, off_time := 0}
                with v | ⟨m, v⟩ | _ | _ <;> rw [hstep] at hskip <;>
              simp only [Res.bind_ok, Res.bind_err, Res.bind_out, Res.bind_ub] at hskip
            all_goals try exact Res.noConfusion hskip
            have hSL0 : skip_loop f1 0 v = .ok v := by
              unfold skip_loop
              rw [if_pos (Or.inl rfl)]
              rfl
            rw [hSL0] at hskip
            simp only [Res.bind_ok, Res.ok.injEq] at hskip
            subst hskip
            have hPT : play_tick F2 s =
                (drain F2 {s with on_time := 0, off_time := 0}).bind
                  (fun s2 => .ok {s2 with play_time := s2.play_time + 1}) := by
              unfold play_tick
              try dsimp only []
              rw [if_pos (by omega)]
              rw [if_neg (fun hcon => absurd hcon.2 (by simp [hoffz]))]
              rw [hon1, hoffz]
            rw [hPT] at hplay
            obtain ⟨v', hv', hcore, hpv', hpv, hfv', hfv⟩ :=
              step_P_cong {s with
                flag := 2 * (s.flag / 2) + 1,
                play_time := s.play_time + 1, on_time := 0, off_time := 0}
                s.play_time s.flag s.note_count s.rest_count v hstep
            have hstep' : step_P {s with on_time := 0, off_time := 0} = .ok v' := hv'
            have hen0' := congrArg PState.enabled hcore
            have hon0' := congrArg PState.on_time hcore
            have hoff0' := congrArg PState.off_time hcore
            have hen' : v'.enabled = v.enabled := hen0'
            have hon' : v'.on_time = v.on_time := hon0'
            have hoff' : v'.off_time = v.off_time := hoff0'
            rcases F2 with _ | f2
            · have hD0 : drain 0 {s with on_time := 0, off_time := 0} = .out := by
                unfold drain
                rw [if_pos ⟨hen, rfl, rfl⟩]
              rw [hD0] at hplay
              simp at hplay
            · have hD : drain (f2 + 1) {s with on_time := 0, off_time := 0} =
                  .ok v' := by
                unfold drain
                rw [if_pos ⟨hen, rfl, rfl⟩]
                try dsimp only []
                rw [hstep']
                simp only [Res.bind_ok]
                apply drain_stop
                intro hcon
                exact ht (show v.enabled = true from hen' ▸ hcon.1)
                  ⟨show v.on_time = 0 from hon' ▸ hcon.2.1,
                   show v.off_time = 0 from hoff' ▸ hcon.2.2⟩
              rw [hD] at hplay
              simp only [Res.bind_ok, Res.ok.injEq] at hplay
              subst hplay
              apply erase_eq_of_ecore
              · calc ecore {v' with play_time := v'.play_time + 1}
                    = ecore v' := ecore_play_set v' _
                  _ = ecore (reb v s.play_time s.flag s.note_count s.rest_count) :=
                    hcore
                  _ = ecore {v with flag := s.flag} := ecore_reb v _ _ _ _
                  _ = ecore {v with flag := 2 * (v.flag / 2)} := by
                    have hvfl : v.flag = 2 * (s.flag / 2) + 1 := hfv
                    simp [ecore, hvfl, flag_roundtrip, flag_idem]
              · dsimp only [] at hpv' hpv
                try dsimp only []
                omega
        · -- on = 1, off nonzero: skip consumes the on-duration, play
          -- synthesizes the key-off REST
          have hSL : skip_loop F1 1 {s with flag := 2 * (s.flag / 2) + 1} =
              .ok {s with
                   flag := 2 * (s.flag / 2) + 1, on_time := 0,
                   play_time := s.play_time + 1} := by
            unfold skip_loop
            rw [if_neg (by simp [hen])]
            try dsimp only []
            rw [if_neg (by rw [hon1]; norm_num)]
            rw [if_pos (by rw [hon1]; (try dsimp only []); omega)]
            rw [hon1]
            norm_num
          rw [hSL] at hskip
          simp only [Res.bind_ok, Res.ok.injEq] at hskip
          subst hskip
          have hPT : play_tick F2 s =
              .ok {s with
                   on_time := 0,
                   event := {type := .REST, param := 0, on_time := 0, off_time := 0},
                   rest_count := s.rest_count + 1,
                   play_time := s.play_time + 1} := by
            unfold play_tick
            try dsimp only []
            rw [if_pos (by omega)]
            rw [if_pos ⟨show s.on_time - 1 = 0 by omega, hoffz⟩]
            try dsimp only []
            rw [show write_event {s with
                on_time := s.on_time - 1,
                event := {type := .REST, param := 0, on_time := 0, off_time := 0}} =
              {s with
                on_time := s.on_time - 1,
                event := {type := .REST, param := 0, on_time := 0, off_time := 0},
                rest_count := s.rest_count + 1} from by
                unfold write_event
                rw [if_neg (by simp), if_pos (by simp)]]
            rw [drain_stop F2 {s with
                on_time := s.on_time - 1,
                event := {type := .REST, param := 0, on_time := 0, off_time := 0},
                rest_count := s.rest_count + 1}
              (fun hcon => absurd (show s.off_time = 0 from hcon.2.2) hoffz)]
            try dsimp only []
            try simp only [Res.bind_ok]
            try rw [show s.on_time - 1 = 0 from by omega]
            try rfl
          rw [hPT] at hplay
          simp only [Res.ok.injEq] at hplay
          subst hplay
          simp [erase, flag_roundtrip, flag_idem]
      · -- on = 0
        have hon0 : s.on_time = 0 := by omega
        by_cases hoffz : s.off_time = 0
        · exact absurd ⟨hon0, hoffz⟩ (hs hen)
        · by_cases hD1 : 1 < s.off_time
          · -- off at least 2: skip consumes one off-tick, play decrements
            have hSL : skip_loop F1 1 {s with flag := 2 * (s.flag / 2) + 1} =
                .ok {s with
                     flag := 2 * (s.flag / 2) + 1,
                     off_time := s.off_time - 1, play_time := s.play_time + 1} := by
              unfold skip_loop
              rw [if_neg (by simp [hen])]
              try dsimp only []
              rw [if_neg (by rw [hon0]; norm_num)]
              rw [if_pos (by rw [hon0]; (try dsimp only []); omega)]
              rw [hon0]
              try norm_num
            rw [hSL] at hskip
            simp only [Res.bind_ok, Res.ok.injEq] at hskip
            subst hskip
            have hPT : play_tick F2 s =
                .ok {s with
                     off_time := s.off_time - 1,
                     play_time := s.play_time + 1} := by
              unfold play_tick
              try dsimp only []
              rw [if_neg (by simp [hon0])]
              rw [if_pos (by simpa using hoffz)]
              rw [drain_stop F2 _ (fun hcon =>
                absurd (show s.off_time - 1 = 0 from hcon.2.2) (by omega))]
              rfl
            rw [hPT] at hplay
            simp only [Res.ok.injEq] at hplay
            subst hplay
            simp [erase, flag_roundtrip, flag_idem]
          · -- off = 1: both runs step exactly one event
            have hoff1 : s.off_time = 1 := by omega
            rcases F1 with _ | f1
            · have hSL : skip_loop 0 1 {s with flag := 2 * (s.flag / 2) + 1} =
                  .out := by
                unfold skip_loop
                rw [if_neg (by simp [hen])]
                try dsimp only []
                rw [if_neg (by rw [hon0]; norm_num)]
                rw [if_neg (by rw [hon0, hoff1]; norm_num)]
              rw [hSL] at hskip
              simp at hskip
            · have hSL : skip_loop (f1 + 1) 1 {s with flag := 2 * (s.flag / 2) + 1} =
                  (step_P {s with
                    flag := 2 * (s.flag / 2) + 1,
                    play_time := s.play_time + 1, on_time := 0,
                    off_time := 0}).bind (skip_loop f1 0) := by
                unfold skip_loop
                rw [if_neg (by simp [hen])]
                try dsimp only []
                rw [if_neg (by rw [hon0]; norm_num)]
                rw [if_neg (by rw [hon0, hoff1]; norm_num)]
                try dsimp only []
                rw [hon0, hoff1]
              rw [hSL] at hskip
              rcases hstep : step_P {s with
                  flag := 2 * (s.flag / 2) + 1,
                  play_time := s.play_time + 1, on_time := 0, off_time := 0}
                  with v | ⟨m, v⟩ | _ | _ <;> rw [hstep] at hskip <;>
                simp only [Res.bind_ok, Res.bind_err, Res.bind_out, Res.bind_ub] at hskip
              all_goals try exact Res.noConfusion hskip
              have hSL0 : skip_loop f1 0 v = .ok v := by
                unfold skip_loop
                rw [if_pos (Or.inl rfl)]
                rfl
              rw [hSL0] at hskip
              simp only [Res.bind_ok, Res.ok.injEq] at hskip
              subst hskip
              have hPT : play_tick F2 s =
                  (drain F2 {s with on_time := 0, off_time := 0}).bind
                    (fun s2 => .ok {s2 with play_time := s2.play_time + 1}) := by
                unfold play_tick
                try dsimp only []
                rw [if_neg (by simp [hon0])]
                rw [if_pos (by simpa using hoffz)]
                rw [hon0, hoff1]
              rw [hPT] at hplay
              obtain ⟨v', hv', hcore, hpv', hpv, hfv', hfv⟩ :=
                step_P_cong {s with
                  flag := 2 * (s.flag / 2) + 1,
                  play_time := s.play_time + 1, on_time := 0, off_time := 0}
                  s.play_time s.flag s.note_count s.rest_count v hstep
              have hstep' : step_P {s with on_time := 0, off_time := 0} = .ok v' := hv'
              have hen0' := congrArg PState.enabled hcore
              have hon0' := congrArg PState.on_time hcore
              have hoff0' := congrArg PState.off_time hcore
              have hen' : v'.enabled = v.enabled := hen0'
              have hon' : v'.on_time = v.on_time := hon0'
              have hoff' : v'.off_time = v.off_time := hoff0'
              rcases F2 with _ | f2
              · have hD0 : drain 0 {s with on_time := 0, off_time := 0} = .out := by
                  unfold drain
                  rw [if_pos ⟨hen, rfl, rfl⟩]
                rw [hD0] at hplay
                simp at hplay
              · have hD : drain (f2 + 1) {s with on_time := 0, off_time := 0} =
                    .ok v' := by
                  unfold drain
                  rw [if_pos ⟨hen, rfl, rfl⟩]
                  try dsimp only []
                  rw [hstep']
                  simp only [Res.bind_ok]
                  apply drain_stop
                  intro hcon
                  exact ht (show v.enabled = true from hen' ▸ hcon.1)
                    ⟨show v.on_time = 0 from hon' ▸ hcon.2.1,
                     show v.off_time = 0 from hoff' ▸ hcon.2.2⟩
                rw [hD] at hplay
                simp only [Res.bind_ok, Res.ok.injEq] at hplay
                subst hplay
                apply erase_eq_of_ecore
                · calc ecore {v' with play_time := v'.play_time + 1}
                      = ecore v' := ecore_play_set v' _
                    _ = ecore (reb v s.play_time s.flag s.note_count s.rest_count) :=
                      hcore
                    _ = ecore {v with flag := s.flag} := ecore_reb v _ _ _ _
                    _ = ecore {v with flag := 2 * (v.flag / 2)} := by
                      have hvfl : v.flag = 2 * (s.flag / 2) + 1 := hfv
                      simp [ecore, hvfl, flag_roundtrip, flag_idem]
                · dsimp only [] at hpv' hpv
                  try dsimp only []
                  omega

/-- A two-event song for the C1 scenarios: NOTE(on=2,off=0) then END. -/
def c1song : Song :=
  {tracks := [(0, [mkEv .NOTE 60 2 0, mkEv .END 0 0 0])], platform_commands := []}

/-- The fresh C1 state with the PLAYER_SKIP bit set. -/
def c1f1 : PState := {initState c1song 0 0 with flag := 1}

/-- After fetching the NOTE in skip mode: full on-duration pending,
skip bit still set, no note counted. -/
def c1f3 : PState :=
  {initState c1song 0 0 with
   position := 1, on_time := 2, flag := 1, event := mkEv .NOTE 60 2 0}

/-- One skipped tick later: on-duration 1 left, skip bit still set. -/
def c1f4 : PState :=
  {initState c1song 0 0 with
   position := 1, on_time := 1, play_time := 1, flag := 1, event := mkEv .NOTE 60 2 0}

/-- After fetching the NOTE in play mode: full on-duration pending and
the note counted. -/
def c1g1 : PState :=
  {initState c1song 0 0 with
   position := 1, on_time := 2, note_count := 1, event := mkEv .NOTE 60 2 0}

/-- Result of skip_ticks(1) from the fresh C1 state. -/
def c1skipEnd : PState :=
  {initState c1song 0 0 with
   position := 1, on_time := 1, play_time := 1, event := mkEv .NOTE 60 2 0}

/-- Result of one play_tick from the fresh C1 state. -/
def c1playEnd : PState :=
  {initState c1song 0 0 with
   position := 1, on_time := 2, play_time := 1, note_count := 1,
   event := mkEv .NOTE 60 2 0}

/-- C1 counterexample: from the fresh state of NOTE(2,0),END a single
skip_ticks(1) immediately consumes a tick of the freshly fetched note
(pending on-duration 1) while a single play_tick leaves the full
duration pending (on-duration 2) and counts the note; the two results
differ even after erasing every emission artifact. -/
theorem c1_skip_ticks_cex :
    skip_ticks 4 1 (initState c1song 0 0) = .ok c1skipEnd ∧
    playN 4 1 (initState c1song 0 0) = .ok c1playEnd ∧
    c1skipEnd.on_time = 1 ∧ c1playEnd.on_time = 2 ∧
    erase c1skipEnd ≠ erase c1playEnd := by
  refine ⟨?_, ?_, rfl, rfl, by decide⟩
  · have h1 : skip_loop 4 1 c1f1 = (step_P c1f1).bind (skip_loop 3 1) := rfl
    have h2 : step_P c1f1 = .ok c1f3 := by decide
    have h3 : skip_loop 3 1 c1f3 = .ok c1f4 := by decide
    show (skip_loop 4 1 c1f1).bind (fun s1 => .ok {s1 with flag := 2 * (s1.flag / 2)}) =
      .ok c1skipEnd
    rw [h1, h2]
    simp only [Res.bind_ok]
    rw [h3]
    simp only [Res.bind_ok]
    decide
  · have h1 : drain 4 (initState c1song 0 0) =
        (step_P (initState c1song 0 0)).bind (drain 3) := rfl
    have h2 : step_P (initState c1song 0 0) = .ok c1g1 := by decide
    have h3 : drain 3 c1g1 = .ok c1g1 := by decide
    show ((drain 4 (initState c1song 0 0)).bind
        (fun s2 => .ok {s2 with play_time := s2.play_time + 1})).bind (playN 4 0) =
      .ok c1playEnd
    rw [h1, h2]
    simp only [Res.bind_ok]
    rw [h3]
    simp only [Res.bind_ok]
    decide

/-- C1: the claimed n-tick equivalence between skip_ticks and play_tick
does not hold state-for-state; what does hold: (1) skip_ticks(n) adds
exactly n to the played time whenever it returns, (2) n play_ticks add
exactly n to the played time whenever they return, and (3) from a
settled state (one whose pending durations were already consumed down
to the current event, and which carries no pending durations if
disabled), a single skip_ticks(1) whose result is again settled agrees
with a single play_tick up to the emission artifacts erased by
`erase` (the PLAYER_SKIP bit, the last-event snapshot and the
note/rest counters). -/
theorem c1_skip_ticks_equiv :
    (∀ (F n : Nat) (s t : PState), skip_ticks F n s = .ok t →
      t.play_time = s.play_time + n) ∧
    (∀ (F n : Nat) (s u : PState), playN F n s = .ok u →
      u.play_time = s.play_time + n) ∧
    (∀ (F1 F2 : Nat) (s t u : PState),
      settled s → (s.enabled = false → s.on_time = 0 ∧ s.off_time = 0) →
      skip_ticks F1 1 s = .ok t → settled t →
      play_tick F2 s = .ok u → erase u = erase t) :=
  ⟨fun F n s t h => skip_ticks_play F n s t h,
   fun F n s u h => playN_play F n s u h,
   fun F1 F2 s t u hs hz hskip ht hplay =>
     skip_one_equiv F1 F2 s t u hs hz hskip ht hplay⟩

instance settled_dec (s : PState) : Decidable (settled s) :=
  decidable_of_iff (s.enabled = true → ¬(s.on_time = 0 ∧ s.off_time = 0)) Iff.rfl

/-- A settled C1 state: the NOTE already fetched, its durations pending. -/
def c1s3 : PState :=
  {initState c1song 0 0 with
   position := 1, on_time := 2, event := mkEv .NOTE 60 2 0}

/-- The common result of one fast-forward tick and one play_tick from
the settled C1 state c1s3. -/
def c1T : PState :=
  {initState c1song 0 0 with
   position := 1, on_time := 1, play_time := 1, event := mkEv .NOTE 60 2 0}

theorem c1_skip_ticks_equiv_witness :
    erase c1T = erase c1T ∧ c1T.play_time = c1s3.play_time + 1 :=
  ⟨c1_skip_ticks_equiv.2.2 4 4 c1s3 c1T c1T (by decide) (by decide) (by decide)
     (by decide) (by decide),
   c1_skip_ticks_equiv.1 4 1 c1s3 c1T (by decide)⟩

end Ctrmml
